import Mathlib

/-!
Verification of the cutlass record-class library (carze/cutlass).

The library wraps a remote document store (OSDF).  Each record class is a
validated field bag with a save/upload/validate protocol, load/search document
mapping, and paginated link traversal.  We embed the Python classes shallowly:

* Python values held in record attributes become the inductive `Val`
  (`Val.null` is Python `None`).
* The external collaborators (OSDF client, aspera transfer, the filesystem)
  become an explicit environment `Env` of pure functions.
* Effectful methods become pure functions that also return the list of
  collaborator calls they made (`Call` events), so that claims of the form
  "no remote call happens" are provable.
* Python exceptions that a method can raise become `Except`; exceptions that
  a method catches internally are modelled by the corresponding `Except`
  result of the environment function being matched inside the method.

The files Base.py, Util.py, aspera.py and iHMPSession.py of the repository are
not included under src/; the pieces of them that matter here (the setter
type-enforcement decorators, `Base.to_json`, `Base._set_id`) are modelled from
the spec where indicated by a doc comment.
-/

namespace Cutlass

/-- A Python/JSON value as held in record attributes and documents.
`null` is Python `None`. -/
inductive Val where
  | null : Val
  | str : String → Val
  | num : Int → Val
  | bool : Bool → Val
  | list : List Val → Val
  | dict : List (String × Val) → Val
deriving Repr

/-- Python `is None` test (`v.isNull = true` iff the attribute is `None`). -/
def Val.isNull : Val → Bool
  | .null => true
  | _ => false

/-- Python truthiness, as used by `if self._private_files:`. -/
def Val.truthy : Val → Bool
  | .null => false
  | .bool b => b
  | .str s => !(s == "")
  | .num n => !(n == 0)
  | .list xs => !xs.isEmpty
  | .dict xs => !xs.isEmpty

/-- Dictionary lookup, `d[k]` on a dict; `none` models a `KeyError`
(or a `TypeError` when the value is not a dict). -/
def Val.get : Val → String → Option Val
  | .dict xs, k => (xs.find? (fun p => p.1 == k)).map Prod.snd
  | _, _ => none

/-- Python `k in d.keys()` on a dict attribute. -/
def Val.hasKey (v : Val) (k : String) : Bool :=
  match v with
  | .dict xs => xs.any (fun p => p.1 == k)
  | _ => false

/-- One call to an external collaborator (OSDF store, aspera, filesystem). -/
inductive Call where
  | validateNode (doc : Val)
  | isfile (path : Val)
  | uploadFile (server user pw fileFrom fileTo : String)
  | insertNode (doc : Val)
  | editNode (doc : Val)
  | getNode (id : String)
  | deleteNode (id : String)
  | oqlQuery (ns q : String) (page : Nat)
deriving Repr

/-- The external collaborators.  `Except.error` models the collaborator call
raising an exception in Python. -/
structure Env where
  validate_node : Val → Bool × String
  insert_node : Val → Except String String
  edit_node : Val → Except String Unit
  get_node : String → Except String Val
  delete_node : String → Except String Unit
  oql_query : String → String → Nat → Int × List Val
  isfile : Val → Bool
  upload_file : String → String → String → String → String → Bool
  username : String
  password : String

/-- `os.path.basename` for POSIX paths: the substring after the last slash
(computed by resetting the accumulator at every slash). -/
def pathBasename (s : String) : String :=
  String.mk (s.toList.foldl (fun acc ch => if ch == '/' then [] else acc ++ [ch]) [])

/-- A character of `valid_chars = "-_." + string.ascii_letters + string.digits`. -/
def validFileChar (c : Char) : Bool :=
  (c == '-') || (c == '_') || (c == '.') || c.isAlpha || c.isDigit

/-- Python `str.replace(' ', '_')`, modelled characterwise. -/
def replaceSpaces (s : String) : String :=
  String.mk (s.toList.map (fun ch => if ch == ' ' then '_' else ch))

/-- The filename sanitisation shared by every `_upload_data`: keep only the
characters of `valid_chars`, then replace spaces by underscores.  (The filter
runs first and removes spaces, so the replacement step finds none.) -/
def sanitizeBase (s : String) : String :=
  replaceSpaces (String.mk (s.toList.filter validFileChar))

/-- The `study2dir` mapping shared by every `_upload_data`:
ibd ↦ ibd, preg_preterm ↦ ptb, prediabetes ↦ t2d. -/
def study2dir (s : String) : Option String :=
  if s == "ibd" then some "ibd"
  else if s == "preg_preterm" then some "ptb"
  else if s == "prediabetes" then some "t2d"
  else none

/-- The aspera server constant shared by every class. -/
def asperaServer : String := "aspera2.ihmpdcc.org"

/-- Modelled from the spec: the `@enforce_string` decorator of cutlass/Util.py
(not under src/).  Per spec section 4.1 a setter enforces its type contract and
raises immediately on violation. -/
def checkString (v : Val) : Except String Unit :=
  match v with
  | .str _ => .ok ()
  | _ => .error "Invalid type: expected a string."

/-- Modelled from the spec: the `@enforce_dict` decorator of cutlass/Util.py. -/
def checkDict (v : Val) : Except String Unit :=
  match v with
  | .dict _ => .ok ()
  | _ => .error "Invalid type: expected a dict."

/-- Modelled from the spec: the `@enforce_bool` decorator of cutlass/Util.py. -/
def checkBool (v : Val) : Except String Unit :=
  match v with
  | .bool _ => .ok ()
  | _ => .error "Invalid type: expected a bool."

/-- Modelled from the spec: the `@enforce_int` decorator of cutlass/Util.py. -/
def checkInt (v : Val) : Except String Unit :=
  match v with
  | .num _ => .ok ()
  | _ => .error "Invalid type: expected an integer."

/-- The `Annotation` field bag (`Annotation.__init__`). `id` is set only via
`_set_id` with the store-returned string identifier (modelled from the spec:
`_set_id` lives in Base.py, not under src/). -/
structure Annotation where
  id : Option String := none
  version : Val := .null
  links : Val := .dict []
  tags : Val := .list []
  annotation_pipeline : Val := .null
  checksums : Val := .dict []
  format : Val := .null
  format_doc : Val := .null
  local_file : Val := .null
  orf_process : Val := .null
  size : Val := .null
  study : Val := .null
  urls : Val := .list [.str ""]
  comment : Val := .null
  date : Val := .null
  sop : Val := .null
  annotation_source : Val := .null
  private_files : Val := .null
deriving Repr

/-- `Annotation.study` setter: only `@enforce_string`, the body stores the
value with no vocabulary check. -/
def annotationStudySet (a : Annotation) (v : Val) : Except String Annotation :=
  match checkString v with
  | .error e => .error e
  | .ok _ => .ok { a with study := v }

/-- `Annotation.checksums` setter: `@enforce_dict`, then store. -/
def annotationChecksumsSet (a : Annotation) (v : Val) : Except String Annotation :=
  match checkDict v with
  | .error e => .error e
  | .ok _ => .ok { a with checksums := v }

/-- `Annotation._get_raw_doc`. -/
def annotationGetRawDoc (a : Annotation) : Val :=
  let meta : List (String × Val) :=
    [("annotation_pipeline", a.annotation_pipeline),
     ("checksums", a.checksums),
     ("format", a.format),
     ("format_doc", a.format_doc),
     ("orf_process", a.orf_process),
     ("size", a.size),
     ("study", a.study),
     ("subtype", a.study),
     ("tags", a.tags),
     ("urls", a.urls)]
  let meta := meta
    ++ (if a.comment.isNull then [] else [("comment", a.comment)])
    ++ (if a.date.isNull then [] else [("date", a.date)])
    ++ (if a.sop.isNull then [] else [("sop", a.sop)])
    ++ (if a.annotation_source.isNull then [] else [("annotation_source", a.annotation_source)])
    ++ (if a.private_files.isNull then [] else [("private_files", a.private_files)])
  let top : List (String × Val) :=
    [("acl", .dict [("read", .list [.str "all"]), ("write", .list [.str "ihmp"])]),
     ("linkage", a.links),
     ("ns", .str "ihmp"),
     ("node_type", .str "annotation"),
     ("meta", .dict meta)]
  let top := top
    ++ (match a.id with | some i => [("id", Val.str i)] | none => [])
    ++ (if a.version.isNull then [] else [("ver", a.version)])
  .dict top

/-- `Annotation.required_fields`. -/
def annotationRequiredFields : List String :=
  ["annotation_pipeline", "checksums", "format", "format_doc",
   "orf_process", "size", "study", "tags"]

/-- `Annotation.validate`: remote schema validation plus the local-file and
`computed_from` link checks; returns the problem list and the calls made. -/
def annotationValidate (env : Env) (a : Annotation) : List String × List Call :=
  let doc := annotationGetRawDoc a
  let (valid, errMsg) := env.validate_node doc
  let p1 := if valid then [] else [errMsg]
  let (p2, t2) :=
    if a.private_files.truthy then ([], [])
    else if a.local_file.isNull then (["Local file is not yet set."], [])
    else if env.isfile a.local_file then ([], [Call.isfile a.local_file])
    else (["Local file does not point to an actual file."], [Call.isfile a.local_file])
  let p3 := if a.links.hasKey "computed_from" then []
            else ["Must have a \x27computed_from\x27 link."]
  (p1 ++ p2 ++ p3, [Call.validateNode doc] ++ t2)

/-- `Annotation.is_valid`: `validate` reduced to a boolean. -/
def annotationIsValid (env : Env) (a : Annotation) : Bool :=
  (annotationValidate env a).1.isEmpty

/-- `Annotation.delete`: raises (`Except.error`) when there is no id; otherwise
calls `delete_node`, catching any store exception into a `false` result. -/
def annotationDelete (env : Env) (a : Annotation) :
    Except String Bool × List Call :=
  match a.id with
  | none => (.error "Annotation does not have an ID.", [])
  | some i =>
    match env.delete_node i with
    | .ok _ => (.ok true, [Call.deleteNode i])
    | .error _ => (.ok false, [Call.deleteNode i])

/-- The remote path `"/".join(["/" + study_dir, "genome", "microbiome",
"wgs", "analysis", "hmgi", remote_base])` of `Annotation._upload_data`. -/
def annotationRemotePath (dir lf : String) : String :=
  "/" ++ dir ++ "/" ++ "genome" ++ "/" ++ "microbiome" ++ "/" ++ "wgs"
    ++ "/" ++ "analysis" ++ "/" ++ "hmgi" ++ "/" ++ sanitizeBase (pathBasename lf)

/-- `Annotation._upload_data`: study-directory mapping, filename sanitisation,
aspera upload; on success the `urls` field becomes the single fasp URL, on
failure (or a bad study / missing file path) the `Except.error` models the
raised exception. -/
def annotationUploadData (env : Env) (a : Annotation) :
    Except String Annotation × List Call :=
  match a.study with
  | .str s =>
    match study2dir s with
    | none => (.error "Invalid study. No directory mapping.", [])
    | some dir =>
      match a.local_file with
      | .str lf =>
        let remotePath := annotationRemotePath dir lf
        let tr := [Call.uploadFile asperaServer env.username env.password lf remotePath]
        if env.upload_file asperaServer env.username env.password lf remotePath then
          (.ok { a with urls := .list [.str ("fasp://" ++ asperaServer ++ remotePath)] }, tr)
        else
          (.error "Unable to upload annotation.", tr)
      | _ => (.error "TypeError: local_file is not a string.", [])
  | _ => (.error "Invalid study. No directory mapping.", [])

/-- The insert-or-update tail of `Annotation.save` (after validation and the
private/upload step).  `json.loads(self.to_json())` is the raw document
(modelled from the spec: `Base.to_json`, not under src/, serialises
`_get_raw_doc`). -/
def annotationSaveCore (env : Env) (a1 : Annotation) (t : List Call) :
    Bool × Annotation × List Call :=
  match a1.id with
  | none =>
    let doc := annotationGetRawDoc a1
    match env.insert_node doc with
    | .ok nid => (true, { a1 with id := some nid, version := .num 1 },
                  t ++ [Call.insertNode doc])
    | .error _ => (false, a1, t ++ [Call.insertNode doc])
  | some aid =>
    let doc := annotationGetRawDoc a1
    match env.edit_node doc with
    | .error _ => (false, a1, t ++ [Call.editNode doc])
    | .ok _ =>
      match env.get_node aid with
      | .error _ => (false, a1, t ++ [Call.editNode doc, Call.getNode aid])
      | .ok nd =>
        match nd.get "ver" with
        | none => (false, a1, t ++ [Call.editNode doc, Call.getNode aid])
        | some v => (true, { a1 with version := v },
                     t ++ [Call.editNode doc, Call.getNode aid])

/-- `Annotation.save`: abort on invalid data; set the private sentinel or
upload; then insert (New) or edit + get (Persisted). -/
def annotationSave (env : Env) (a : Annotation) : Bool × Annotation × List Call :=
  let (problems, t0) := annotationValidate env a
  if problems.isEmpty then
    match (if a.private_files.truthy
           then (Except.ok { a with urls := Val.list [Val.str "<private>"] }, ([] : List Call))
           else annotationUploadData env a) with
    | (.ok a1, t1) => annotationSaveCore env a1 (t0 ++ t1)
    | (.error _, t1) => (false, a, t0 ++ t1)
  else (false, a, t0)

/-- The `Cytokine` field bag (`Cytokine.__init__`). -/
structure Cytokine where
  id : Option String := none
  version : Val := .null
  links : Val := .dict []
  tags : Val := .list []
  checksums : Val := .dict []
  study : Val := .null
  urls : Val := .list [.str ""]
  comment : Val := .null
  format : Val := .null
  format_doc : Val := .null
  local_file : Val := .null
  private_files : Val := .null
deriving Repr

/-- `Cytokine.study` setter: only `@enforce_string`, the body stores the value
with no vocabulary check. -/
def cytokineStudySet (c : Cytokine) (v : Val) : Except String Cytokine :=
  match checkString v with
  | .error e => .error e
  | .ok _ => .ok { c with study := v }

/-- `Cytokine.checksums` setter: `@enforce_dict` plus the body's own
(redundant) isinstance dict check, then store. -/
def cytokineChecksumsSet (c : Cytokine) (v : Val) : Except String Cytokine :=
  match checkDict v with
  | .error e => .error e
  | .ok _ =>
    match v with
    | .dict _ => .ok { c with checksums := v }
    | _ => .error "Invalid type for checksums."

/-- `Cytokine._get_raw_doc`.  (The source assigns the optional `format_doc`
key twice; on a Python dict the second assignment is a no-op, so one entry.) -/
def cytokineGetRawDoc (c : Cytokine) : Val :=
  let meta : List (String × Val) :=
    [("checksums", c.checksums),
     ("study", c.study),
     ("subtype", c.study),
     ("tags", c.tags),
     ("urls", c.urls)]
  let meta := meta
    ++ (if c.comment.isNull then [] else [("comment", c.comment)])
    ++ (if c.format.isNull then [] else [("format", c.format)])
    ++ (if c.format_doc.isNull then [] else [("format_doc", c.format_doc)])
    ++ (if c.private_files.isNull then [] else [("private_files", c.private_files)])
  let top : List (String × Val) :=
    [("acl", .dict [("read", .list [.str "all"]), ("write", .list [.str "ihmp"])]),
     ("linkage", c.links),
     ("ns", .str "ihmp"),
     ("node_type", .str "cytokine"),
     ("meta", .dict meta)]
  let top := top
    ++ (match c.id with | some i => [("id", Val.str i)] | none => [])
    ++ (if c.version.isNull then [] else [("ver", c.version)])
  .dict top

/-- `Cytokine.validate`. -/
def cytokineValidate (env : Env) (c : Cytokine) : List String × List Call :=
  let doc := cytokineGetRawDoc c
  let (valid, errMsg) := env.validate_node doc
  let p1 := if valid then [] else [errMsg]
  let (p2, t2) :=
    if c.private_files.truthy then ([], [])
    else if c.local_file.isNull then (["Local file is not yet set."], [])
    else if env.isfile c.local_file then ([], [Call.isfile c.local_file])
    else (["Local file does not point to an actual file."], [Call.isfile c.local_file])
  let p3 := if c.links.hasKey "derived_from" then []
            else ["Must have a \x27derived_from\x27 link to a microb_assay_prep or a host_assay_prep."]
  (p1 ++ p2 ++ p3, [Call.validateNode doc] ++ t2)

/-- `Cytokine.is_valid`. -/
def cytokineIsValid (env : Env) (c : Cytokine) : Bool :=
  (cytokineValidate env c).1.isEmpty

/-- The remote path `"/".join(["/" + study_dir, "cytokine", "host",
remote_base])` of `Cytokine._upload_data`. -/
def cytokineRemotePath (dir lf : String) : String :=
  "/" ++ dir ++ "/" ++ "cytokine" ++ "/" ++ "host" ++ "/"
    ++ sanitizeBase (pathBasename lf)

/-- `Cytokine._upload_data`: remote path `/<study_dir>/cytokine/host/<base>`. -/
def cytokineUploadData (env : Env) (c : Cytokine) :
    Except String Cytokine × List Call :=
  match c.study with
  | .str s =>
    match study2dir s with
    | none => (.error "Invalid study. No directory mapping.", [])
    | some dir =>
      match c.local_file with
      | .str lf =>
        let remotePath := cytokineRemotePath dir lf
        let tr := [Call.uploadFile asperaServer env.username env.password lf remotePath]
        if env.upload_file asperaServer env.username env.password lf remotePath then
          (.ok { c with urls := .list [.str ("fasp://" ++ asperaServer ++ remotePath)] }, tr)
        else
          (.error "Unable to upload cytokine.", tr)
      | _ => (.error "TypeError: local_file is not a string.", [])
  | _ => (.error "Invalid study. No directory mapping.", [])

/-- The insert-or-update tail of `Cytokine.save`. -/
def cytokineSaveCore (env : Env) (c1 : Cytokine) (t : List Call) :
    Bool × Cytokine × List Call :=
  match c1.id with
  | none =>
    let doc := cytokineGetRawDoc c1
    match env.insert_node doc with
    | .ok nid => (true, { c1 with id := some nid, version := .num 1 },
                  t ++ [Call.insertNode doc])
    | .error _ => (false, c1, t ++ [Call.insertNode doc])
  | some cid =>
    let doc := cytokineGetRawDoc c1
    match env.edit_node doc with
    | .error _ => (false, c1, t ++ [Call.editNode doc])
    | .ok _ =>
      match env.get_node cid with
      | .error _ => (false, c1, t ++ [Call.editNode doc, Call.getNode cid])
      | .ok nd =>
        match nd.get "ver" with
        | none => (false, c1, t ++ [Call.editNode doc, Call.getNode cid])
        | some v => (true, { c1 with version := v },
                     t ++ [Call.editNode doc, Call.getNode cid])

/-- `Cytokine.save`. -/
def cytokineSave (env : Env) (c : Cytokine) : Bool × Cytokine × List Call :=
  let (problems, t0) := cytokineValidate env c
  if problems.isEmpty then
    match (if c.private_files.truthy
           then (Except.ok { c with urls := Val.list [Val.str "<private>"] }, ([] : List Call))
           else cytokineUploadData env c) with
    | (.ok c1, t1) => cytokineSaveCore env c1 (t0 ++ t1)
    | (.error _, t1) => (false, c, t0 ++ t1)
  else (false, c, t0)

/-- Required top-level document lookup: `d[k]`, `KeyError` on absence. -/
def reqTop (d : Val) (k : String) : Except String Val :=
  match d.get k with
  | some v => .ok v
  | none => .error ("KeyError: " ++ k)

/-- Required meta-section lookup: `d["meta"][k]`, `KeyError` on absence. -/
def reqMeta (d : Val) (k : String) : Except String Val :=
  match (d.get "meta").bind (fun m => m.get k) with
  | some v => .ok v
  | none => .error ("KeyError: meta " ++ k)

/-- Optional meta-section lookup: `k in d["meta"]` guarding the access. -/
def optMeta (d : Val) (k : String) : Option Val :=
  (d.get "meta").bind (fun m => m.get k)

/-- Modelled from the spec: the `tags` setter of Base.py (not under src/)
stores a list of tags. -/
def checkList (v : Val) : Except String Unit :=
  match v with
  | .list _ => .ok ()
  | _ => .error "Invalid type: expected a list."

/-- Modelled from the spec: the common id/linkage/version header of every
`load_*` routine.  `_set_id` (Base.py) stores the store identifier string, the
`links` setter stores the linkage dict, the `version` setter the server
version integer. -/
def loadHeader (d : Val) : Except String (String × Val × Val) := do
  let idv ← reqTop d "id"
  let i ← match idv with
    | .str i => pure i
    | _ => throw "TypeError: id is not a string"
  let lk ← reqTop d "linkage"
  let _ ← checkDict lk
  let ver ← reqTop d "ver"
  let _ ← checkInt ver
  pure (i, lk, ver)

/-- `Cytokine.comment` setter (`@enforce_string`). -/
def cytokineCommentSet (c : Cytokine) (v : Val) : Except String Cytokine := do
  let _ ← checkString v
  pure { c with comment := v }

/-- `Cytokine.format` setter (`@enforce_string`, no vocabulary check). -/
def cytokineFormatSet (c : Cytokine) (v : Val) : Except String Cytokine := do
  let _ ← checkString v
  pure { c with format := v }

/-- `Cytokine.format_doc` setter (`@enforce_string`). -/
def cytokineFormatDocSet (c : Cytokine) (v : Val) : Except String Cytokine := do
  let _ ← checkString v
  pure { c with format_doc := v }

/-- `Cytokine.private_files` setter (`@enforce_bool`). -/
def cytokinePrivateFilesSet (c : Cytokine) (v : Val) : Except String Cytokine := do
  let _ ← checkBool v
  pure { c with private_files := v }

/-- `Cytokine.load_cytokine`: builds a `Cytokine` from a raw document.
Required fields are read unconditionally (checksums, study, tags, urls);
optional fields (comment, format, format_doc, private_files) only when their
key is present in the meta section.  `urls` is assigned to the private
attribute directly, with no setter check. -/
def cytokineLoad (d : Val) : Except String Cytokine := do
  let (i, lk, ver) ← loadHeader d
  let c1 : Cytokine := { id := some i, links := lk, version := ver }
  let c2 ← cytokineChecksumsSet c1 (← reqMeta d "checksums")
  let c3 ← cytokineStudySet c2 (← reqMeta d "study")
  let tg ← reqMeta d "tags"
  let _ ← checkList tg
  let c4 := { c3 with tags := tg }
  let ur ← reqMeta d "urls"
  let c5 := { c4 with urls := ur }
  let c6 ← match optMeta d "comment" with
    | some v => cytokineCommentSet c5 v
    | none => pure c5
  let c7 ← match optMeta d "format" with
    | some v => cytokineFormatSet c6 v
    | none => pure c6
  let c8 ← match optMeta d "format_doc" with
    | some v => cytokineFormatDocSet c7 v
    | none => pure c7
  let c9 ← match optMeta d "private_files" with
    | some v => cytokinePrivateFilesSet c8 v
    | none => pure c8
  pure c9

/-- The `HostWgsRawSeqSet` field bag (`HostWgsRawSeqSet.__init__`). -/
structure HostWgsRawSeqSet where
  id : Option String := none
  version : Val := .null
  links : Val := .dict []
  tags : Val := .list []
  checksums : Val := .null
  comment : Val := .null
  exp_length : Val := .null
  format : Val := .null
  format_doc : Val := .null
  local_file : Val := .null
  seq_model : Val := .null
  sequence_type : Val := .null
  size : Val := .null
  study : Val := .null
  urls : Val := .list [.str ""]
  private_files : Val := .null
deriving Repr

/-- `HostWgsRawSeqSet.study` setter: `@enforce_string`, then the body rejects
values outside preg_preterm/ibd/prediabetes. -/
def hostWgsStudySet (h : HostWgsRawSeqSet) (v : Val) :
    Except String HostWgsRawSeqSet := do
  let _ ← checkString v
  match v with
  | .str s =>
    if ["preg_preterm", "ibd", "prediabetes"].contains s then
      pure { h with study := v }
    else throw "Not a valid study"
  | _ => throw "Not a valid study"

/-- `HostWgsRawSeqSet.format` setter: `@enforce_string`, then the body rejects
values other than fasta/fastq. -/
def hostWgsFormatSet (h : HostWgsRawSeqSet) (v : Val) :
    Except String HostWgsRawSeqSet := do
  let _ ← checkString v
  match v with
  | .str s =>
    if ["fasta", "fastq"].contains s then
      pure { h with format := v }
    else throw "Format must be either fasta or fastq."
  | _ => throw "Format must be either fasta or fastq."

/-- `HostWgsRawSeqSet.sequence_type` setter: `@enforce_string`, then the body
rejects values other than peptide/nucleotide. -/
def hostWgsSequenceTypeSet (h : HostWgsRawSeqSet) (v : Val) :
    Except String HostWgsRawSeqSet := do
  let _ ← checkString v
  match v with
  | .str s =>
    if ["peptide", "nucleotide"].contains s then
      pure { h with sequence_type := v }
    else throw "Sequence type must be peptide or nucleotide"
  | _ => throw "Sequence type must be peptide or nucleotide"

/-- `HostWgsRawSeqSet.checksums` setter (`@enforce_dict`). -/
def hostWgsChecksumsSet (h : HostWgsRawSeqSet) (v : Val) :
    Except String HostWgsRawSeqSet := do
  let _ ← checkDict v
  pure { h with checksums := v }

/-- `HostWgsRawSeqSet._get_raw_doc`. -/
def hostWgsGetRawDoc (h : HostWgsRawSeqSet) : Val :=
  let meta : List (String × Val) :=
    [("checksums", h.checksums),
     ("comment", h.comment),
     ("exp_length", h.exp_length),
     ("format", h.format),
     ("format_doc", h.format_doc),
     ("seq_model", h.seq_model),
     ("size", h.size),
     ("study", h.study),
     ("urls", h.urls),
     ("subtype", .str "wgs"),
     ("tags", h.tags)]
  let meta := meta
    ++ (if h.sequence_type.isNull then [] else [("sequence_type", h.sequence_type)])
    ++ (if h.private_files.isNull then [] else [("private_files", h.private_files)])
  let top : List (String × Val) :=
    [("acl", .dict [("read", .list [.str "all"]), ("write", .list [.str "ihmp"])]),
     ("linkage", h.links),
     ("ns", .str "ihmp"),
     ("node_type", .str "host_wgs_raw_seq_set"),
     ("meta", .dict meta)]
  let top := top
    ++ (match h.id with | some i => [("id", Val.str i)] | none => [])
    ++ (if h.version.isNull then [] else [("ver", h.version)])
  .dict top

/-- `HostWgsRawSeqSet.required_fields`. -/
def hostWgsRequiredFields : List String :=
  ["checksums", "comment", "exp_length", "format", "format_doc",
   "local_file", "seq_model", "size", "study", "tags", "urls"]

/-- `HostWgsRawSeqSet.validate`. -/
def hostWgsValidate (env : Env) (h : HostWgsRawSeqSet) : List String × List Call :=
  let doc := hostWgsGetRawDoc h
  let (valid, errMsg) := env.validate_node doc
  let p1 := if valid then [] else [errMsg]
  let (p2, t2) :=
    if h.private_files.truthy then ([], [])
    else if h.local_file.isNull then (["Local file is not yet set."], [])
    else if env.isfile h.local_file then ([], [Call.isfile h.local_file])
    else (["Local file does not point to an actual file."], [Call.isfile h.local_file])
  let p3 := if h.links.hasKey "sequenced_from" then []
            else ["Must add a \x27sequenced_from\x27 link to a host_seq_prep."]
  (p1 ++ p2 ++ p3, [Call.validateNode doc] ++ t2)

/-- `HostWgsRawSeqSet.is_valid`. -/
def hostWgsIsValid (env : Env) (h : HostWgsRawSeqSet) : Bool :=
  (hostWgsValidate env h).1.isEmpty

/-- `HostWgsRawSeqSet._upload_data`: remote path
`/<study_dir>/genome/host/wgs/raw/<base>`. -/
def hostWgsUploadData (env : Env) (h : HostWgsRawSeqSet) :
    Except String HostWgsRawSeqSet × List Call :=
  match h.study with
  | .str s =>
    match study2dir s with
    | none => (.error "Invalid study. No directory mapping.", [])
    | some dir =>
      match h.local_file with
      | .str lf =>
        let remoteBase := sanitizeBase (pathBasename lf)
        let remotePath := "/" ++ dir ++ "/" ++ "genome" ++ "/" ++ "host"
          ++ "/" ++ "wgs" ++ "/" ++ "raw" ++ "/" ++ remoteBase
        let tr := [Call.uploadFile asperaServer env.username env.password lf remotePath]
        if env.upload_file asperaServer env.username env.password lf remotePath then
          (.ok { h with urls := .list [.str ("fasp://" ++ asperaServer ++ remotePath)] }, tr)
        else
          (.error "Unable to upload host WGS raw sequence set.", tr)
      | _ => (.error "TypeError: local_file is not a string.", [])
  | _ => (.error "Invalid study. No directory mapping.", [])

/-- The insert-or-update tail of `HostWgsRawSeqSet.save`. -/
def hostWgsSaveCore (env : Env) (h1 : HostWgsRawSeqSet) (t : List Call) :
    Bool × HostWgsRawSeqSet × List Call :=
  match h1.id with
  | none =>
    let doc := hostWgsGetRawDoc h1
    match env.insert_node doc with
    | .ok nid => (true, { h1 with id := some nid, version := .num 1 },
                  t ++ [Call.insertNode doc])
    | .error _ => (false, h1, t ++ [Call.insertNode doc])
  | some hid =>
    let doc := hostWgsGetRawDoc h1
    match env.edit_node doc with
    | .error _ => (false, h1, t ++ [Call.editNode doc])
    | .ok _ =>
      match env.get_node hid with
      | .error _ => (false, h1, t ++ [Call.editNode doc, Call.getNode hid])
      | .ok nd =>
        match nd.get "ver" with
        | none => (false, h1, t ++ [Call.editNode doc, Call.getNode hid])
        | some v => (true, { h1 with version := v },
                     t ++ [Call.editNode doc, Call.getNode hid])

/-- `HostWgsRawSeqSet.save`. -/
def hostWgsSave (env : Env) (h : HostWgsRawSeqSet) :
    Bool × HostWgsRawSeqSet × List Call :=
  let (problems, t0) := hostWgsValidate env h
  if problems.isEmpty then
    match (if h.private_files.truthy
           then (Except.ok { h with urls := Val.list [Val.str "<private>"] }, ([] : List Call))
           else hostWgsUploadData env h) with
    | (.ok h1, t1) => hostWgsSaveCore env h1 (t0 ++ t1)
    | (.error _, t1) => (false, h, t0 ++ t1)
  else (false, h, t0)

/-- The `SixteenSTrimmedSeqSet` field bag (`SixteenSTrimmedSeqSet.__init__`). -/
structure SixteenSTrimmedSeqSet where
  id : Option String := none
  version : Val := .null
  links : Val := .dict []
  tags : Val := .list []
  checksums : Val := .null
  comment : Val := .null
  format : Val := .null
  format_doc : Val := .null
  size : Val := .null
  study : Val := .null
  urls : Val := .list [.str ""]
  local_file : Val := .null
  private_files : Val := .null
  sequence_type : Val := .null
deriving Repr

/-- `SixteenSTrimmedSeqSet.checksums` setter: `@enforce_dict`, then the body
requires the `md5` key, raising `ValueError` otherwise. -/
def sixteenSChecksumsSet (q : SixteenSTrimmedSeqSet) (v : Val) :
    Except String SixteenSTrimmedSeqSet := do
  let _ ← checkDict v
  if v.hasKey "md5" then
    pure { q with checksums := v }
  else throw "Checksum data must contain at least the \x27md5\x27 value"

/-- `SixteenSTrimmedSeqSet.comment` setter (`@enforce_string`). -/
def sixteenSCommentSet (q : SixteenSTrimmedSeqSet) (v : Val) :
    Except String SixteenSTrimmedSeqSet := do
  let _ ← checkString v
  pure { q with comment := v }

/-- `SixteenSTrimmedSeqSet.format` setter: `@enforce_string`, then the body
rejects values other than fasta/fastq. -/
def sixteenSFormatSet (q : SixteenSTrimmedSeqSet) (v : Val) :
    Except String SixteenSTrimmedSeqSet := do
  let _ ← checkString v
  match v with
  | .str s =>
    if ["fasta", "fastq"].contains s then
      pure { q with format := v }
    else throw "Format must be one of \x27fasta\x27 or \x27fastq\x27."
  | _ => throw "Format must be one of \x27fasta\x27 or \x27fastq\x27."

/-- `SixteenSTrimmedSeqSet.format_doc` setter (`@enforce_string`). -/
def sixteenSFormatDocSet (q : SixteenSTrimmedSeqSet) (v : Val) :
    Except String SixteenSTrimmedSeqSet := do
  let _ ← checkString v
  pure { q with format_doc := v }

/-- `SixteenSTrimmedSeqSet.local_file` setter (`@enforce_string`). -/
def sixteenSLocalFileSet (q : SixteenSTrimmedSeqSet) (v : Val) :
    Except String SixteenSTrimmedSeqSet := do
  let _ ← checkString v
  pure { q with local_file := v }

/-- `SixteenSTrimmedSeqSet.private_files` setter (`@enforce_bool`). -/
def sixteenSPrivateFilesSet (q : SixteenSTrimmedSeqSet) (v : Val) :
    Except String SixteenSTrimmedSeqSet := do
  let _ ← checkBool v
  pure { q with private_files := v }

/-- `SixteenSTrimmedSeqSet.sequence_type` setter: `@enforce_string`, then the
body rejects values other than peptide/nucleotide. -/
def sixteenSSequenceTypeSet (q : SixteenSTrimmedSeqSet) (v : Val) :
    Except String SixteenSTrimmedSeqSet := do
  let _ ← checkString v
  match v with
  | .str s =>
    if ["peptide", "nucleotide"].contains s then
      pure { q with sequence_type := v }
    else throw "Sequence type must be either peptide or nucleotide"
  | _ => throw "Sequence type must be either peptide or nucleotide"

/-- `SixteenSTrimmedSeqSet.size` setter: `@enforce_int`, then the body raises
`ValueError` when `size <= 0`. -/
def sixteenSSizeSet (q : SixteenSTrimmedSeqSet) (v : Val) :
    Except String SixteenSTrimmedSeqSet := do
  let _ ← checkInt v
  match v with
  | .num n =>
    if n ≤ 0 then throw "The size must be a non-negative integer."
    else pure { q with size := v }
  | _ => throw "The size must be a non-negative integer."

/-- `SixteenSTrimmedSeqSet.study` setter: `@enforce_string`, then the body
rejects values outside preg_preterm/ibd/prediabetes. -/
def sixteenSStudySet (q : SixteenSTrimmedSeqSet) (v : Val) :
    Except String SixteenSTrimmedSeqSet := do
  let _ ← checkString v
  match v with
  | .str s =>
    if ["preg_preterm", "ibd", "prediabetes"].contains s then
      pure { q with study := v }
    else throw "Not a valid study"
  | _ => throw "Not a valid study"

/-- `SixteenSTrimmedSeqSet.required_fields`. -/
def sixteenSRequiredFields : List String :=
  ["checksums", "comment", "format", "format_doc",
   "local_file", "size", "study", "tags"]

/-- `SixteenSTrimmedSeqSet._get_raw_doc`. -/
def sixteenSGetRawDoc (q : SixteenSTrimmedSeqSet) : Val :=
  let meta : List (String × Val) :=
    [("checksums", q.checksums),
     ("comment", q.comment),
     ("format", q.format),
     ("format_doc", q.format_doc),
     ("size", q.size),
     ("study", q.study),
     ("subtype", .str "16s"),
     ("urls", q.urls),
     ("tags", q.tags)]
  let meta := meta
    ++ (if q.sequence_type.isNull then [] else [("sequence_type", q.sequence_type)])
    ++ (if q.private_files.isNull then [] else [("private_files", q.private_files)])
  let top : List (String × Val) :=
    [("acl", .dict [("read", .list [.str "all"]), ("write", .list [.str "ihmp"])]),
     ("linkage", q.links),
     ("ns", .str "ihmp"),
     ("node_type", .str "16s_trimmed_seq_set"),
     ("meta", .dict meta)]
  let top := top
    ++ (match q.id with | some i => [("id", Val.str i)] | none => [])
    ++ (if q.version.isNull then [] else [("ver", q.version)])
  .dict top

/-- `SixteenSTrimmedSeqSet.validate`. -/
def sixteenSValidate (env : Env) (q : SixteenSTrimmedSeqSet) :
    List String × List Call :=
  let doc := sixteenSGetRawDoc q
  let (valid, errMsg) := env.validate_node doc
  let p1 := if valid then [] else [errMsg]
  let (p2, t2) :=
    if q.private_files.truthy then ([], [])
    else if q.local_file.isNull then (["Local file is not yet set."], [])
    else if env.isfile q.local_file then ([], [Call.isfile q.local_file])
    else (["Local file does not point to an actual file."], [Call.isfile q.local_file])
  let p3 := if q.links.hasKey "computed_from" then []
            else ["Must add a \x27computed_from\x27 link to a 16s_raw_seq_set."]
  (p1 ++ p2 ++ p3, [Call.validateNode doc] ++ t2)

/-- `SixteenSTrimmedSeqSet.is_valid`. -/
def sixteenSIsValid (env : Env) (q : SixteenSTrimmedSeqSet) : Bool :=
  (sixteenSValidate env q).1.isEmpty

/-- `SixteenSTrimmedSeqSet.load_sixteenSTrimmedSeqSet`: builds a record from a
raw document.  The unconditional block reads checksums, comment, format,
format_doc, size, tags and urls (it does not read `study` or `local_file`);
sequence_type and private_files are read only when present. -/
def sixteenSLoad (d : Val) : Except String SixteenSTrimmedSeqSet := do
  let (i, lk, ver) ← loadHeader d
  let q1 : SixteenSTrimmedSeqSet := { id := some i, links := lk, version := ver }
  let q2 ← sixteenSChecksumsSet q1 (← reqMeta d "checksums")
  let q3 ← sixteenSCommentSet q2 (← reqMeta d "comment")
  let q4 ← sixteenSFormatSet q3 (← reqMeta d "format")
  let q5 ← sixteenSFormatDocSet q4 (← reqMeta d "format_doc")
  let q6 ← sixteenSSizeSet q5 (← reqMeta d "size")
  let tg ← reqMeta d "tags"
  let _ ← checkList tg
  let q7 := { q6 with tags := tg }
  let ur ← reqMeta d "urls"
  let q8 := { q7 with urls := ur }
  let q9 ← match optMeta d "sequence_type" with
    | some v => sixteenSSequenceTypeSet q8 v
    | none => pure q8
  let q10 ← match optMeta d "private_files" with
    | some v => sixteenSPrivateFilesSet q9 v
    | none => pure q9
  pure q10

/-- `Annotation.annotation_pipeline` setter (`@enforce_string`). -/
def annotationPipelineSet (a : Annotation) (v : Val) : Except String Annotation := do
  let _ ← checkString v
  pure { a with annotation_pipeline := v }

/-- `Annotation.format` setter (`@enforce_string`, no vocabulary check). -/
def annotationFormatSet (a : Annotation) (v : Val) : Except String Annotation := do
  let _ ← checkString v
  pure { a with format := v }

/-- `Annotation.format_doc` setter (`@enforce_string`). -/
def annotationFormatDocSet (a : Annotation) (v : Val) : Except String Annotation := do
  let _ ← checkString v
  pure { a with format_doc := v }

/-- `Annotation.comment` setter (`@enforce_string`). -/
def annotationCommentSet (a : Annotation) (v : Val) : Except String Annotation := do
  let _ ← checkString v
  pure { a with comment := v }

/-- `Annotation.date` setter (`@enforce_string` and `@enforce_past_date`; the
past-date restriction compares against the wall clock, which the embedding
does not model, so only the string check is kept — no claim depends on it). -/
def annotationDateSet (a : Annotation) (v : Val) : Except String Annotation := do
  let _ ← checkString v
  pure { a with date := v }

/-- `Annotation.sop` setter (`@enforce_string`). -/
def annotationSopSet (a : Annotation) (v : Val) : Except String Annotation := do
  let _ ← checkString v
  pure { a with sop := v }

/-- `Annotation.annotation_source` setter (`@enforce_string`). -/
def annotationSourceSet (a : Annotation) (v : Val) : Except String Annotation := do
  let _ ← checkString v
  pure { a with annotation_source := v }

/-- `Annotation.private_files` setter (`@enforce_bool`). -/
def annotationPrivateFilesSet (a : Annotation) (v : Val) : Except String Annotation := do
  let _ ← checkBool v
  pure { a with private_files := v }

/-- `Annotation.load_annotation`: builds an `Annotation` from a raw document.
The unconditional block reads annotation_pipeline, checksums, format,
format_doc, study, tags and urls (it does not read `orf_process` or `size`);
comment, date, sop, annotation_source and private_files are read only when
present. -/
def annotationLoad (d : Val) : Except String Annotation := do
  let (i, lk, ver) ← loadHeader d
  let a1 : Annotation := { id := some i, links := lk, version := ver }
  let a2 ← annotationPipelineSet a1 (← reqMeta d "annotation_pipeline")
  let a3 ← annotationChecksumsSet a2 (← reqMeta d "checksums")
  let a4 ← annotationFormatSet a3 (← reqMeta d "format")
  let a5 ← annotationFormatDocSet a4 (← reqMeta d "format_doc")
  let a6 ← annotationStudySet a5 (← reqMeta d "study")
  let tg ← reqMeta d "tags"
  let _ ← checkList tg
  let a7 := { a6 with tags := tg }
  let ur ← reqMeta d "urls"
  let a8 := { a7 with urls := ur }
  let a9 ← match optMeta d "comment" with
    | some v => annotationCommentSet a8 v
    | none => pure a8
  let a10 ← match optMeta d "date" with
    | some v => annotationDateSet a9 v
    | none => pure a9
  let a11 ← match optMeta d "sop" with
    | some v => annotationSopSet a10 v
    | none => pure a10
  let a12 ← match optMeta d "annotation_source" with
    | some v => annotationSourceSet a11 v
    | none => pure a11
  let a13 ← match optMeta d "private_files" with
    | some v => annotationPrivateFilesSet a12 v
    | none => pure a12
  pure a13

/-- The `ProteomeNonPride` field bag (`ProteomeNonPride.__init__`). -/
structure ProteomeNonPride where
  id : Option String := none
  version : Val := .null
  links : Val := .dict []
  tags : Val := .list []
  comment : Val := .null
  data_processing_protocol : Val := .null
  processing_method : Val := .null
  study : Val := .null
  subtype : Val := .null
  local_other_file : Val := .null
  local_peak_file : Val := .null
  local_protmod_file : Val := .null
  local_raw_file : Val := .null
  analyzer : Val := .null
  date : Val := .null
  detector : Val := .null
  exp_description : Val := .null
  instrument_name : Val := .null
  other_url : Val := .list [.str ""]
  peak_url : Val := .list [.str ""]
  private_files : Val := .null
  protmod_format : Val := .null
  protmod_url : Val := .list [.str ""]
  protocol_name : Val := .null
  protocol_steps : Val := .null
  raw_url : Val := .list [.str ""]
  reference : Val := .null
  search_engine : Val := .null
  short_label : Val := .null
  software : Val := .null
  source : Val := .null
  title : Val := .null
deriving Repr

/-- `ProteomeNonPride.study` setter: `@enforce_string`, then the body rejects
values outside preg_preterm/ibd/prediabetes. -/
def proteomeStudySet (p : ProteomeNonPride) (v : Val) :
    Except String ProteomeNonPride := do
  let _ ← checkString v
  match v with
  | .str s =>
    if ["preg_preterm", "ibd", "prediabetes"].contains s then
      pure { p with study := v }
    else throw "Invalid study."
  | _ => throw "Invalid study."

/-- `ProteomeNonPride.subtype` setter: `@enforce_string`, then the body
rejects values other than host/microbiome. -/
def proteomeSubtypeSet (p : ProteomeNonPride) (v : Val) :
    Except String ProteomeNonPride := do
  let _ ← checkString v
  match v with
  | .str s =>
    if ["host", "microbiome"].contains s then
      pure { p with subtype := v }
    else throw "Invalid subtype."
  | _ => throw "Invalid subtype."

/-- `ProteomeNonPride._get_raw_doc`. -/
def proteomeGetRawDoc (p : ProteomeNonPride) : Val :=
  let meta : List (String × Val) :=
    [("comment", p.comment),
     ("data_processing_protocol", p.data_processing_protocol),
     ("other_url", p.other_url),
     ("peak_url", p.peak_url),
     ("processing_method", p.processing_method),
     ("protmod_url", p.protmod_url),
     ("raw_url", p.raw_url),
     ("study", p.study),
     ("subtype", p.subtype),
     ("tags", p.tags)]
  let meta := meta
    ++ (if p.analyzer.isNull then [] else [("analyzer", p.analyzer)])
    ++ (if p.date.isNull then [] else [("date", p.date)])
    ++ (if p.detector.isNull then [] else [("detector", p.detector)])
    ++ (if p.exp_description.isNull then [] else [("exp_description", p.exp_description)])
    ++ (if p.instrument_name.isNull then [] else [("instrument_name", p.instrument_name)])
    ++ (if p.private_files.isNull then [] else [("private_files", p.private_files)])
    ++ (if p.protmod_format.isNull then [] else [("protmod_format", p.protmod_format)])
    ++ (if p.protocol_name.isNull then [] else [("protocol_name", p.protocol_name)])
    ++ (if p.protocol_steps.isNull then [] else [("protocol_steps", p.protocol_steps)])
    ++ (if p.reference.isNull then [] else [("reference", p.reference)])
    ++ (if p.search_engine.isNull then [] else [("search_engine", p.search_engine)])
    ++ (if p.short_label.isNull then [] else [("short_label", p.short_label)])
    ++ (if p.software.isNull then [] else [("software", p.software)])
    ++ (if p.source.isNull then [] else [("source", p.source)])
    ++ (if p.title.isNull then [] else [("title", p.title)])
  let top : List (String × Val) :=
    [("acl", .dict [("read", .list [.str "all"]), ("write", .list [.str "ihmp"])]),
     ("linkage", p.links),
     ("ns", .str "ihmp"),
     ("node_type", .str "proteome_nonpride"),
     ("meta", .dict meta)]
  let top := top
    ++ (match p.id with | some i => [("id", Val.str i)] | none => [])
    ++ (if p.version.isNull then [] else [("ver", p.version)])
  .dict top

/-- `ProteomeNonPride.validate`: schema validation plus the four local-file
checks (when not private) and the `derived_from` link check. -/
def proteomeValidate (env : Env) (p : ProteomeNonPride) : List String × List Call :=
  let doc := proteomeGetRawDoc p
  let (valid, errMsg) := env.validate_node doc
  let p1 := if valid then [] else [errMsg]
  let fileCheck := fun (v : Val) (msgUnset msgNotFile : String) =>
    if v.isNull then (([msgUnset] : List String), ([] : List Call))
    else if env.isfile v then ([], [Call.isfile v])
    else ([msgNotFile], [Call.isfile v])
  let (p2, t2) :=
    if p.private_files.truthy then ([], [])
    else
      let (pa, ta) := fileCheck p.local_other_file
        "Local \x27other\x27 file is not yet set."
        "Local \x27other\x27 file does not point to an actual file."
      let (pb, tb) := fileCheck p.local_peak_file
        "Local peak file is not yet set."
        "Local peak file does not point to an actual file."
      let (pc, tc) := fileCheck p.local_protmod_file
        "Local protmod file is not yet set."
        "Local protmod file does not point to an actual file."
      let (pd, td) := fileCheck p.local_raw_file
        "Local raw file is not yet set."
        "Local raw file does not point to an actual file."
      (pa ++ pb ++ pc ++ pd, ta ++ tb ++ tc ++ td)
  let p3 := if p.links.hasKey "derived_from" then []
            else ["Must have a \x27derived_from\x27 link to a microb_assay_prep or a host_assay_prep."]
  (p1 ++ p2 ++ p3, [Call.validateNode doc] ++ t2)

/-- `ProteomeNonPride.is_valid`. -/
def proteomeIsValid (env : Env) (p : ProteomeNonPride) : Bool :=
  (proteomeValidate env p).1.isEmpty

/-- One iteration of the loop in `ProteomeNonPride._upload_files`: sanitise
the basename, build `/<study_dir>/proteome_nonpride/<subtype>/<file_type>/<base>`
and upload; an upload failure raises. -/
def proteomeUploadOne (env : Env) (dir subty fileType : String) (lf : Val) :
    Except String String × List Call :=
  match lf with
  | .str f =>
    let remoteBase := sanitizeBase (pathBasename f)
    let remotePath := "/" ++ dir ++ "/" ++ "proteome_nonpride" ++ "/" ++ subty
      ++ "/" ++ fileType ++ "/" ++ remoteBase
    let tr := [Call.uploadFile asperaServer env.username env.password f remotePath]
    if env.upload_file asperaServer env.username env.password f remotePath then
      (.ok ("fasp://" ++ asperaServer ++ remotePath), tr)
    else
      (.error ("Unable to upload " ++ f), tr)
  | _ => (.error "TypeError: local file is not a string.", [])

/-- `ProteomeNonPride._upload_files` over the file map
{other, peak, protmod, raw}: uploads each file in turn, collecting the
computed fasp URLs; the first failure aborts with an exception. -/
def proteomeUploadFiles (env : Env) (p : ProteomeNonPride) :
    Except String (String × String × String × String) × List Call :=
  match p.study with
  | .str s =>
    match study2dir s with
    | none => (.error "Invalid study. No directory mapping.", [])
    | some dir =>
      match p.subtype with
      | .str subty =>
        let (r1, t1) := proteomeUploadOne env dir subty "other" p.local_other_file
        match r1 with
        | .error e => (.error e, t1)
        | .ok uOther =>
          let (r2, t2) := proteomeUploadOne env dir subty "peak" p.local_peak_file
          match r2 with
          | .error e => (.error e, t1 ++ t2)
          | .ok uPeak =>
            let (r3, t3) := proteomeUploadOne env dir subty "protmod" p.local_protmod_file
            match r3 with
            | .error e => (.error e, t1 ++ t2 ++ t3)
            | .ok uProtmod =>
              let (r4, t4) := proteomeUploadOne env dir subty "raw" p.local_raw_file
              match r4 with
              | .error e => (.error e, t1 ++ t2 ++ t3 ++ t4)
              | .ok uRaw => (.ok (uOther, uPeak, uProtmod, uRaw), t1 ++ t2 ++ t3 ++ t4)
      | _ => (.error "TypeError: subtype is not a string.", [])
  | _ => (.error "Invalid study. No directory mapping.", [])

/-- The insert-or-update tail of `ProteomeNonPride.save`. -/
def proteomeSaveCore (env : Env) (p1 : ProteomeNonPride) (t : List Call) :
    Bool × ProteomeNonPride × List Call :=
  match p1.id with
  | none =>
    let doc := proteomeGetRawDoc p1
    match env.insert_node doc with
    | .ok nid => (true, { p1 with id := some nid, version := .num 1 },
                  t ++ [Call.insertNode doc])
    | .error _ => (false, p1, t ++ [Call.insertNode doc])
  | some pid =>
    let doc := proteomeGetRawDoc p1
    match env.edit_node doc with
    | .error _ => (false, p1, t ++ [Call.editNode doc])
    | .ok _ =>
      match env.get_node pid with
      | .error _ => (false, p1, t ++ [Call.editNode doc, Call.getNode pid])
      | .ok nd =>
        match nd.get "ver" with
        | none => (false, p1, t ++ [Call.editNode doc, Call.getNode pid])
        | some v => (true, { p1 with version := v },
                     t ++ [Call.editNode doc, Call.getNode pid])

/-- `ProteomeNonPride.save`: abort on invalid data; when `private_files` is
truthy set all four URL fields to the `<private>` sentinel and skip the
upload, otherwise upload the four files and set the URL fields to the
returned fasp paths; then insert or edit + get. -/
def proteomeSave (env : Env) (p : ProteomeNonPride) :
    Bool × ProteomeNonPride × List Call :=
  let (problems, t0) := proteomeValidate env p
  if problems.isEmpty then
    if p.private_files.truthy then
      let p1 := { p with other_url := Val.list [Val.str "<private>"],
                         peak_url := Val.list [Val.str "<private>"],
                         protmod_url := Val.list [Val.str "<private>"],
                         raw_url := Val.list [Val.str "<private>"] }
      proteomeSaveCore env p1 t0
    else
      match proteomeUploadFiles env p with
      | (.error _, t1) => (false, p, t0 ++ t1)
      | (.ok (uOther, uPeak, uProtmod, uRaw), t1) =>
        let p1 := { p with other_url := Val.list [Val.str uOther],
                           peak_url := Val.list [Val.str uPeak],
                           protmod_url := Val.list [Val.str uProtmod],
                           raw_url := Val.list [Val.str uRaw] }
        proteomeSaveCore env p1 (t0 ++ t1)
  else (false, p, t0)

/-- The `HostAssayPrep` field bag (`HostAssayPrep.__init__`). -/
structure HostAssayPrep where
  id : Option String := none
  version : Val := .null
  links : Val := .dict []
  tags : Val := .list []
  center : Val := .null
  comment : Val := .null
  contact : Val := .null
  experiment_type : Val := .null
  prep_id : Val := .null
  pride_id : Val := .null
  sample_name : Val := .null
  storage_duration : Val := .null
  study : Val := .null
  title : Val := .null
  cell_type : Val := .null
  exp_description : Val := .null
  protocol_name : Val := .null
  protocol_steps : Val := .null
  reference : Val := .null
  sample_description : Val := .null
  short_label : Val := .null
  species : Val := .null
  tissue : Val := .null
  urls : Val := .null
deriving Repr

/-- `HostAssayPrep.study` setter: only `@enforce_string`, the body stores the
value with no vocabulary check. -/
def hostAssayPrepStudySet (p : HostAssayPrep) (v : Val) :
    Except String HostAssayPrep := do
  let _ ← checkString v
  pure { p with study := v }

/-- `HostAssayPrep._get_raw_doc`. -/
def hostAssayPrepGetRawDoc (p : HostAssayPrep) : Val :=
  let meta : List (String × Val) :=
    [("comment", p.comment),
     ("sample_name", p.sample_name),
     ("title", p.title),
     ("center", p.center),
     ("contact", p.contact),
     ("prep_id", p.prep_id),
     ("experiment_type", p.experiment_type),
     ("subtype", p.study),
     ("study", p.study),
     ("tags", p.tags)]
  let meta := meta
    ++ (if p.short_label.isNull then [] else [("short_label", p.short_label)])
    ++ (if p.urls.isNull then [] else [("urls", p.urls)])
    ++ (if p.pride_id.isNull then [] else [("pride_id", p.pride_id)])
    ++ (if p.species.isNull then [] else [("species", p.species)])
    ++ (if p.cell_type.isNull then [] else [("cell_type", p.cell_type)])
    ++ (if p.tissue.isNull then [] else [("tissue", p.tissue)])
    ++ (if p.protocol_name.isNull then [] else [("protocol_name", p.protocol_name)])
    ++ (if p.protocol_steps.isNull then [] else [("protocol_steps", p.protocol_steps)])
    ++ (if p.reference.isNull then [] else [("reference", p.reference)])
    ++ (if p.exp_description.isNull then [] else [("exp_description", p.exp_description)])
    ++ (if p.sample_description.isNull then [] else [("sample_description", p.sample_description)])
    ++ (if p.storage_duration.isNull then [] else [("storage_duration", p.storage_duration)])
  let top : List (String × Val) :=
    [("acl", .dict [("read", .list [.str "all"]), ("write", .list [.str "ihmp"])]),
     ("linkage", p.links),
     ("ns", .str "ihmp"),
     ("node_type", .str "host_assay_prep"),
     ("meta", .dict meta)]
  let top := top
    ++ (match p.id with | some i => [("id", Val.str i)] | none => [])
    ++ (if p.version.isNull then [] else [("ver", p.version)])
  .dict top

/-- `HostAssayPrep.required_fields`. -/
def hostAssayPrepRequiredFields : List String :=
  ["comment", "sample_name", "title", "center", "contact",
   "prep_id", "experiment_type", "study", "tags"]

/-- `HostAssayPrep.validate`: schema validation plus the `prepared_from` link
check (no local-file check for this type). -/
def hostAssayPrepValidate (env : Env) (p : HostAssayPrep) :
    List String × List Call :=
  let doc := hostAssayPrepGetRawDoc p
  let (valid, errMsg) := env.validate_node doc
  let p1 := if valid then [] else [errMsg]
  let p3 := if p.links.hasKey "prepared_from" then []
            else ["Must have a \x27prepared_from\x27 link to a sample."]
  (p1 ++ p3, [Call.validateNode doc])

/-- `HostAssayPrep.is_valid`: unlike the other classes this does not reuse
`validate`; it calls `validate_node` itself and then overrides the verdict to
`false` when the `prepared_from` link is missing. -/
def hostAssayPrepIsValid (env : Env) (p : HostAssayPrep) : Bool :=
  let doc := hostAssayPrepGetRawDoc p
  let (valid, _) := env.validate_node doc
  if p.links.hasKey "prepared_from" then valid else false

/-- The shared page loop of the link-traversal accessors
(`for page_no in count(1): ...`): fetch a page, yield its hits, recompute
`res_count` from the freshly fetched page, subtract the page length and stop
when the remainder drops below one.  The loop can run forever, so it is given
fuel; the second component is `true` when the loop reached its `break` (the
Python generator terminated) and `false` when the fuel ran out first. -/
def linkTraversalRun (q : Nat → Int × List Val) : Nat → Nat → List Val × Bool
  | 0, _ => ([], false)
  | fuel + 1, page =>
    let (cnt, results) := q page
    let rc := cnt - results.length
    if rc < 1 then (results, true)
    else
      let (rest, fin) := linkTraversalRun q fuel (page + 1)
      (results ++ rest, fin)

/-- Python `"{}".format(self.id)` on the id attribute used by the linkage
queries. -/
def idFormat (i : Option String) : String :=
  match i with
  | some s => s
  | none => "None"

/-- `HostAssayPrep.cytokines`: paginated query on `linkage.derived_from`
filtered to cytokine nodes, each hit mapped through `Cytokine.load_cytokine`.
Fuel-indexed as in `linkTraversalRun`. -/
def hostAssayPrepCytokines (env : Env) (p : HostAssayPrep) (fuel : Nat) :
    List (Except String Cytokine) × Bool :=
  let lq := "\"" ++ idFormat p.id ++ "\"[linkage.derived_from] and \"cytokine\"[node_type]"
  let (docs, fin) := linkTraversalRun (fun pg => env.oql_query "ihmp" lq pg) fuel 1
  (docs.map cytokineLoad, fin)

/-- `Annotation.clustered_seq_sets`: paginated query on
`linkage.computed_from`.  Each hit is mapped through
`ClusteredSeqSet.load_clustered_seq_set`, whose module is not part of src/;
modelled from the spec: the hits are yielded one-to-one in document order, so
the yielded sequence is represented by the raw hit documents. -/
def annotationClusteredSeqSets (env : Env) (a : Annotation) (fuel : Nat) :
    List Val × Bool :=
  let lq := "\"" ++ idFormat a.id ++ "\"[linkage.computed_from]"
  linkTraversalRun (fun pg => env.oql_query "ihmp" lq pg) fuel 1

/-- The store-side paging behaviour the pagination claim presupposes: the
store holds `docs` matching documents, every page query reports the total
matching count (`result_count = docs.length`) and returns that page of hits
(`pageSize` documents starting after the previous pages). -/
def pagedStore (docs : List Val) (pageSize : Nat) (page : Nat) :
    Int × List Val :=
  ((docs.length : Int), (docs.drop ((page - 1) * pageSize)).take pageSize)

/-- `true` iff the call list contains none of: file upload, `insert_node`,
`edit_node`, `get_node` (the calls enumerated by the no-remote-call claim). -/
def noWriteCalls (t : List Call) : Bool :=
  !(t.any fun c => match c with
    | .uploadFile _ _ _ _ _ => true
    | .insertNode _ => true
    | .editNode _ => true
    | .getNode _ => true
    | _ => false)

/-- `true` iff the call list contains no `aspera.upload_file` call. -/
def noUploadCalls (t : List Call) : Bool :=
  !(t.any fun c => match c with
    | .uploadFile _ _ _ _ _ => true
    | _ => false)

/-- A benign concrete environment: schema validation succeeds, every store
call succeeds, every file exists, uploads succeed. -/
def envOk : Env where
  validate_node := fun _ => (true, "")
  insert_node := fun _ => .ok "node-id-1"
  edit_node := fun _ => .ok ()
  get_node := fun _ => .ok (.dict [("ver", .num 7)])
  delete_node := fun _ => .ok ()
  oql_query := fun _ _ _ => (0, [])
  isfile := fun _ => true
  upload_file := fun _ _ _ _ _ => true
  username := "user"
  password := "pw"

/-- Helper for C9, Annotation part. -/
theorem annotationMissingLink (env : Env) (a : Annotation)
    (hl : a.links.hasKey "computed_from" = false) :
    "Must have a \x27computed_from\x27 link." ∈ (annotationValidate env a).1 ∧
      annotationIsValid env a = false := by
  rcases hvn : env.validate_node (annotationGetRawDoc a) with ⟨valid, msg⟩
  constructor
  · simp [annotationValidate, hvn, hl]
  · simp [annotationIsValid, annotationValidate, hvn, hl, List.isEmpty_iff]

/-- Helper for C9, SixteenSTrimmedSeqSet part. -/
theorem sixteenSMissingLink (env : Env) (q : SixteenSTrimmedSeqSet)
    (hl : q.links.hasKey "computed_from" = false) :
    "Must add a \x27computed_from\x27 link to a 16s_raw_seq_set." ∈
        (sixteenSValidate env q).1 ∧
      sixteenSIsValid env q = false := by
  rcases hvn : env.validate_node (sixteenSGetRawDoc q) with ⟨valid, msg⟩
  constructor
  · simp [sixteenSValidate, hvn, hl]
  · simp [sixteenSIsValid, sixteenSValidate, hvn, hl, List.isEmpty_iff]

/-- Helper for C9, Cytokine part. -/
theorem cytokineMissingLink (env : Env) (c : Cytokine)
    (hl : c.links.hasKey "derived_from" = false) :
    "Must have a \x27derived_from\x27 link to a microb_assay_prep or a host_assay_prep." ∈
        (cytokineValidate env c).1 ∧
      cytokineIsValid env c = false := by
  rcases hvn : env.validate_node (cytokineGetRawDoc c) with ⟨valid, msg⟩
  constructor
  · simp [cytokineValidate, hvn, hl]
  · simp [cytokineIsValid, cytokineValidate, hvn, hl, List.isEmpty_iff]

/-- Helper for C9, ProteomeNonPride part. -/
theorem proteomeMissingLink (env : Env) (p : ProteomeNonPride)
    (hl : p.links.hasKey "derived_from" = false) :
    "Must have a \x27derived_from\x27 link to a microb_assay_prep or a host_assay_prep." ∈
        (proteomeValidate env p).1 ∧
      proteomeIsValid env p = false := by
  rcases hvn : env.validate_node (proteomeGetRawDoc p) with ⟨valid, msg⟩
  constructor
  · simp [proteomeValidate, hvn, hl]
  · simp [proteomeIsValid, proteomeValidate, hvn, hl, List.isEmpty_iff]

/-- Helper for C9, HostWgsRawSeqSet part. -/
theorem hostWgsMissingLink (env : Env) (h : HostWgsRawSeqSet)
    (hl : h.links.hasKey "sequenced_from" = false) :
    "Must add a \x27sequenced_from\x27 link to a host_seq_prep." ∈
        (hostWgsValidate env h).1 ∧
      hostWgsIsValid env h = false := by
  rcases hvn : env.validate_node (hostWgsGetRawDoc h) with ⟨valid, msg⟩
  constructor
  · simp [hostWgsValidate, hvn, hl]
  · simp [hostWgsIsValid, hostWgsValidate, hvn, hl, List.isEmpty_iff]

/-- Helper for C9, HostAssayPrep part. -/
theorem hostAssayPrepMissingLink (env : Env) (p : HostAssayPrep)
    (hl : p.links.hasKey "prepared_from" = false) :
    "Must have a \x27prepared_from\x27 link to a sample." ∈
        (hostAssayPrepValidate env p).1 ∧
      hostAssayPrepIsValid env p = false := by
  rcases hvn : env.validate_node (hostAssayPrepGetRawDoc p) with ⟨valid, msg⟩
  constructor
  · simp [hostAssayPrepValidate, hvn, hl]
  · simp [hostAssayPrepIsValid, hvn, hl]

/-- C9: for each record type, when the type\x27s required backlink relation is
absent from `links`, `validate()` returns a list containing the problem about
the missing link and `is_valid()` is false, whatever the environment (in
particular however the store-side schema validation answers) and whatever the
other fields hold. -/
theorem claim_C9_missing_link_invalidates (env : Env) (a : Annotation)
    (q : SixteenSTrimmedSeqSet) (c : Cytokine) (p : ProteomeNonPride)
    (h : HostWgsRawSeqSet) (hp : HostAssayPrep) :
    (a.links.hasKey "computed_from" = false →
      "Must have a \x27computed_from\x27 link." ∈ (annotationValidate env a).1 ∧
        annotationIsValid env a = false) ∧
    (q.links.hasKey "computed_from" = false →
      "Must add a \x27computed_from\x27 link to a 16s_raw_seq_set." ∈
          (sixteenSValidate env q).1 ∧
        sixteenSIsValid env q = false) ∧
    (c.links.hasKey "derived_from" = false →
      "Must have a \x27derived_from\x27 link to a microb_assay_prep or a host_assay_prep." ∈
          (cytokineValidate env c).1 ∧
        cytokineIsValid env c = false) ∧
    (p.links.hasKey "derived_from" = false →
      "Must have a \x27derived_from\x27 link to a microb_assay_prep or a host_assay_prep." ∈
          (proteomeValidate env p).1 ∧
        proteomeIsValid env p = false) ∧
    (h.links.hasKey "sequenced_from" = false →
      "Must add a \x27sequenced_from\x27 link to a host_seq_prep." ∈
          (hostWgsValidate env h).1 ∧
        hostWgsIsValid env h = false) ∧
    (hp.links.hasKey "prepared_from" = false →
      "Must have a \x27prepared_from\x27 link to a sample." ∈
          (hostAssayPrepValidate env hp).1 ∧
        hostAssayPrepIsValid env hp = false) :=
  ⟨annotationMissingLink env a, sixteenSMissingLink env q,
   cytokineMissingLink env c, proteomeMissingLink env p,
   hostWgsMissingLink env h, hostAssayPrepMissingLink env hp⟩

/-- Witness for C9 at freshly constructed records (empty `links`) under the
benign environment whose schema validation succeeds. -/
theorem claim_C9_missing_link_invalidates_witness :
    ("Must have a \x27computed_from\x27 link." ∈
        (annotationValidate envOk {}).1 ∧
      annotationIsValid envOk {} = false) ∧
    ("Must add a \x27computed_from\x27 link to a 16s_raw_seq_set." ∈
        (sixteenSValidate envOk {}).1 ∧
      sixteenSIsValid envOk {} = false) ∧
    ("Must have a \x27derived_from\x27 link to a microb_assay_prep or a host_assay_prep." ∈
        (cytokineValidate envOk {}).1 ∧
      cytokineIsValid envOk {} = false) ∧
    ("Must have a \x27derived_from\x27 link to a microb_assay_prep or a host_assay_prep." ∈
        (proteomeValidate envOk {}).1 ∧
      proteomeIsValid envOk {} = false) ∧
    ("Must add a \x27sequenced_from\x27 link to a host_seq_prep." ∈
        (hostWgsValidate envOk {}).1 ∧
      hostWgsIsValid envOk {} = false) ∧
    ("Must have a \x27prepared_from\x27 link to a sample." ∈
        (hostAssayPrepValidate envOk {}).1 ∧
      hostAssayPrepIsValid envOk {} = false) := by
  obtain ⟨h1, h2, h3, h4, h5, h6⟩ :=
    claim_C9_missing_link_invalidates envOk {} {} {} {} {} {}
  exact ⟨h1 rfl, h2 rfl, h3 rfl, h4 rfl, h5 rfl, h6 rfl⟩

/-- C10: the SixteenSTrimmedSeqSet checksums setter rejects (with the
`ValueError` message) every dict lacking the `md5` key and stores unchanged
every dict containing it, while the Annotation, Cytokine and HostWgsRawSeqSet
checksums setters store any dict unchanged.  (An error leaves the field at its
previous value: the `Except` embedding returns no updated record.) -/
theorem claim_C10_checksums_md5_requirement (q : SixteenSTrimmedSeqSet)
    (a : Annotation) (c : Cytokine) (h : HostWgsRawSeqSet)
    (xs : List (String × Val)) :
    ((Val.dict xs).hasKey "md5" = false →
      sixteenSChecksumsSet q (.dict xs) =
        .error "Checksum data must contain at least the \x27md5\x27 value") ∧
    ((Val.dict xs).hasKey "md5" = true →
      sixteenSChecksumsSet q (.dict xs) = .ok { q with checksums := .dict xs }) ∧
    annotationChecksumsSet a (.dict xs) = .ok { a with checksums := .dict xs } ∧
    cytokineChecksumsSet c (.dict xs) = .ok { c with checksums := .dict xs } ∧
    hostWgsChecksumsSet h (.dict xs) = .ok { h with checksums := .dict xs } := by
  refine ⟨fun hk => ?_, fun hk => ?_, ?_, ?_, ?_⟩ <;>
    simp [sixteenSChecksumsSet, annotationChecksumsSet, cytokineChecksumsSet,
      hostWgsChecksumsSet, checkDict, Bind.bind, Except.bind,
      throw, throwThe, MonadExceptOf.throw, Pure.pure, Except.pure, *]

/-- Witness for C10: a dict with only a sha256 key is rejected, a dict with an
md5 key is stored, and the other setters accept an arbitrary dict. -/
theorem claim_C10_checksums_md5_requirement_witness :
    (sixteenSChecksumsSet {} (.dict [("sha256", .str "aa")]) =
      .error "Checksum data must contain at least the \x27md5\x27 value") ∧
    (sixteenSChecksumsSet {} (.dict [("md5", .str "abc")]) =
      .ok { checksums := .dict [("md5", .str "abc")] }) ∧
    (annotationChecksumsSet {} (.dict [("sha256", .str "aa")]) =
      .ok { checksums := .dict [("sha256", .str "aa")] }) := by
  refine ⟨(claim_C10_checksums_md5_requirement {} {} {} {} [("sha256", .str "aa")]).1 (by rfl),
    (claim_C10_checksums_md5_requirement {} {} {} {} [("md5", .str "abc")]).2.1 (by rfl),
    (claim_C10_checksums_md5_requirement {} {} {} {} [("sha256", .str "aa")]).2.2.1⟩

/-- C7 (amended): the enumerated-field setters that perform a vocabulary
check — study on HostWgsRawSeqSet, SixteenSTrimmedSeqSet and ProteomeNonPride,
format and sequence_type on HostWgsRawSeqSet and SixteenSTrimmedSeqSet, and
subtype on ProteomeNonPride — reject every out-of-vocabulary value (and, the
`Except` embedding returning no updated record, leave the field at its
previous value); the study setters of Annotation, Cytokine and HostAssayPrep
and the format setters of Annotation and Cytokine enforce no vocabulary and
accept any string. -/
theorem claim_C7_enum_setters (h : HostWgsRawSeqSet) (q : SixteenSTrimmedSeqSet)
    (p : ProteomeNonPride) (a : Annotation) (c : Cytokine) (hp : HostAssayPrep)
    (s : String) :
    (["preg_preterm", "ibd", "prediabetes"].contains s = false →
      hostWgsStudySet h (.str s) = .error "Not a valid study" ∧
      sixteenSStudySet q (.str s) = .error "Not a valid study" ∧
      proteomeStudySet p (.str s) = .error "Invalid study.") ∧
    (["fasta", "fastq"].contains s = false →
      hostWgsFormatSet h (.str s) = .error "Format must be either fasta or fastq." ∧
      sixteenSFormatSet q (.str s) =
        .error "Format must be one of \x27fasta\x27 or \x27fastq\x27.") ∧
    (["peptide", "nucleotide"].contains s = false →
      hostWgsSequenceTypeSet h (.str s) =
        .error "Sequence type must be peptide or nucleotide" ∧
      sixteenSSequenceTypeSet q (.str s) =
        .error "Sequence type must be either peptide or nucleotide") ∧
    (["host", "microbiome"].contains s = false →
      proteomeSubtypeSet p (.str s) = .error "Invalid subtype.") ∧
    annotationStudySet a (.str s) = .ok { a with study := .str s } ∧
    cytokineStudySet c (.str s) = .ok { c with study := .str s } ∧
    hostAssayPrepStudySet hp (.str s) = .ok { hp with study := .str s } ∧
    annotationFormatSet a (.str s) = .ok { a with format := .str s } ∧
    cytokineFormatSet c (.str s) = .ok { c with format := .str s } := by
  refine ⟨fun hs => ⟨?_, ?_, ?_⟩, fun hs => ⟨?_, ?_⟩, fun hs => ⟨?_, ?_⟩,
    fun hs => ?_, ?_, ?_, ?_, ?_, ?_⟩ <;>
    simp only [hostWgsStudySet, sixteenSStudySet, proteomeStudySet,
      hostWgsFormatSet, sixteenSFormatSet, hostWgsSequenceTypeSet,
      sixteenSSequenceTypeSet, proteomeSubtypeSet, annotationStudySet,
      cytokineStudySet, hostAssayPrepStudySet, annotationFormatSet,
      cytokineFormatSet, checkString, Bind.bind, Except.bind] <;>
    first
    | rfl
    | (rw [if_neg (by simpa using hs)]; rfl)

/-- Witness for C7 (amended) at the out-of-vocabulary string "bogus". -/
theorem claim_C7_enum_setters_witness :
    (hostWgsStudySet {} (.str "bogus") = .error "Not a valid study" ∧
      sixteenSStudySet {} (.str "bogus") = .error "Not a valid study" ∧
      proteomeStudySet {} (.str "bogus") = .error "Invalid study.") ∧
    (hostWgsFormatSet {} (.str "bogus") =
        .error "Format must be either fasta or fastq." ∧
      sixteenSFormatSet {} (.str "bogus") =
        .error "Format must be one of \x27fasta\x27 or \x27fastq\x27.") ∧
    (hostWgsSequenceTypeSet {} (.str "bogus") =
        .error "Sequence type must be peptide or nucleotide" ∧
      sixteenSSequenceTypeSet {} (.str "bogus") =
        .error "Sequence type must be either peptide or nucleotide") ∧
    proteomeSubtypeSet {} (.str "bogus") = .error "Invalid subtype." := by
  obtain ⟨h1, h2, h3, h4, _⟩ :=
    claim_C7_enum_setters {} {} {} {} {} {} "bogus"
  exact ⟨h1 (by rfl), h2 (by rfl), h3 (by rfl), h4 (by rfl)⟩

/-- Counterexample to C7 as stated: the claim demands that on *every* record
type an out-of-vocabulary `study` assignment raises, but the Annotation study
setter performs no vocabulary check — assigning "bogus" succeeds and stores
the value. -/
theorem claim_C7_counterexample :
    annotationStudySet {} (.str "bogus") = .ok { study := .str "bogus" } := by
  rfl

/-- `true` iff the call list contains only schema-validation and
filesystem-check calls (the calls `validate()` can make). -/
def readOnlyCalls (t : List Call) : Bool :=
  t.all fun c => match c with
    | .validateNode _ => true
    | .isfile _ => true
    | _ => false

/-- `true` iff the call list contains no `insert_node`, `edit_node` or
`get_node` call (the record was saved "without contacting the store"). -/
def noStoreCalls (t : List Call) : Bool :=
  !(t.any fun c => match c with
    | .insertNode _ => true
    | .editNode _ => true
    | .getNode _ => true
    | _ => false)

theorem readOnly_noWrite {t : List Call} (h : readOnlyCalls t = true) :
    noWriteCalls t = true := by
  simp only [readOnlyCalls, List.all_eq_true] at h
  simp only [noWriteCalls, Bool.not_eq_true', List.any_eq_false]
  intro c hc
  have := h c hc
  cases c <;> simp_all

theorem readOnly_noUpload {t : List Call} (h : readOnlyCalls t = true) :
    noUploadCalls t = true := by
  simp only [readOnlyCalls, List.all_eq_true] at h
  simp only [noUploadCalls, Bool.not_eq_true', List.any_eq_false]
  intro c hc
  have := h c hc
  cases c <;> simp_all

theorem readOnly_noStore {t : List Call} (h : readOnlyCalls t = true) :
    noStoreCalls t = true := by
  simp only [readOnlyCalls, List.all_eq_true] at h
  simp only [noStoreCalls, Bool.not_eq_true', List.any_eq_false]
  intro c hc
  have := h c hc
  cases c <;> simp_all

theorem readOnly_not_insert {t : List Call} {d : Val}
    (h : readOnlyCalls t = true) : Call.insertNode d ∉ t := by
  intro hm
  simp only [readOnlyCalls, List.all_eq_true] at h
  have := h _ hm
  simp at this

theorem readOnly_not_edit {t : List Call} {d : Val}
    (h : readOnlyCalls t = true) : Call.editNode d ∉ t := by
  intro hm
  simp only [readOnlyCalls, List.all_eq_true] at h
  have := h _ hm
  simp at this

theorem annotationValidateReadOnly (env : Env) (a : Annotation) :
    readOnlyCalls (annotationValidate env a).2 = true := by
  rcases hvn : env.validate_node (annotationGetRawDoc a) with ⟨valid, msg⟩
  simp only [annotationValidate, hvn]
  split_ifs <;> rfl

theorem cytokineValidateReadOnly (env : Env) (c : Cytokine) :
    readOnlyCalls (cytokineValidate env c).2 = true := by
  rcases hvn : env.validate_node (cytokineGetRawDoc c) with ⟨valid, msg⟩
  simp only [cytokineValidate, hvn]
  split_ifs <;> rfl

theorem proteomeValidateReadOnly (env : Env) (p : ProteomeNonPride) :
    readOnlyCalls (proteomeValidate env p).2 = true := by
  rcases hvn : env.validate_node (proteomeGetRawDoc p) with ⟨valid, msg⟩
  simp only [proteomeValidate, hvn]
  split_ifs <;> rfl

theorem hostWgsValidateReadOnly (env : Env) (h : HostWgsRawSeqSet) :
    readOnlyCalls (hostWgsValidate env h).2 = true := by
  rcases hvn : env.validate_node (hostWgsGetRawDoc h) with ⟨valid, msg⟩
  simp only [hostWgsValidate, hvn]
  split_ifs <;> rfl

theorem annotationUploadDataOk {env : Env} {a a1 : Annotation} {t : List Call}
    (h : annotationUploadData env a = (.ok a1, t)) :
    ∃ u, a1 = { a with urls := u } := by
  unfold annotationUploadData at h
  split at h <;> try simp at h
  split at h <;> try simp at h
  split at h <;> try simp at h
  split at h
  · simp only [Prod.mk.injEq, Except.ok.injEq] at h
    exact ⟨_, h.1.symm⟩
  · simp at h

theorem annotationUploadDataCalls (env : Env) (a : Annotation) :
    noStoreCalls (annotationUploadData env a).2 = true := by
  unfold annotationUploadData
  split <;> try rfl
  split <;> try rfl
  split <;> try rfl
  dsimp only
  split <;> rfl

theorem annotationSaveCoreNew {env : Env} {a1 : Annotation} {t : List Call}
    {r : Bool} {a2 : Annotation} {tr : List Call} (hid : a1.id = none)
    (h : annotationSaveCore env a1 t = (r, a2, tr)) :
    tr = t ++ [Call.insertNode (annotationGetRawDoc a1)] ∧
    ((r = true ∧ ∃ nid, env.insert_node (annotationGetRawDoc a1) = .ok nid ∧
        a2 = { a1 with id := some nid, version := .num 1 }) ∨
     (r = false ∧ a2 = a1 ∧
        ∃ e, env.insert_node (annotationGetRawDoc a1) = .error e)) := by
  unfold annotationSaveCore at h
  rw [hid] at h
  dsimp only at h
  split at h <;> simp only [Prod.mk.injEq] at h <;> obtain ⟨hr, ha, ht⟩ := h
  · rename_i nid hins
    exact ⟨ht.symm, Or.inl ⟨hr.symm, nid, hins, ha.symm⟩⟩
  · rename_i e hins
    exact ⟨ht.symm, Or.inr ⟨hr.symm, ha.symm, e, hins⟩⟩

theorem annotationSaveCorePersisted {env : Env} {a1 : Annotation}
    {t : List Call} {r : Bool} {a2 : Annotation} {tr : List Call} {i : String}
    (hid : a1.id = some i)
    (h : annotationSaveCore env a1 t = (r, a2, tr)) :
    (tr = t ++ [Call.editNode (annotationGetRawDoc a1)] ∨
     tr = t ++ [Call.editNode (annotationGetRawDoc a1), Call.getNode i]) ∧
    ((r = true ∧ env.edit_node (annotationGetRawDoc a1) = .ok () ∧
        ∃ nd v, env.get_node i = .ok nd ∧ nd.get "ver" = some v ∧
        a2 = { a1 with version := v } ∧
        tr = t ++ [Call.editNode (annotationGetRawDoc a1), Call.getNode i]) ∨
     (r = false ∧ a2 = a1)) := by
  unfold annotationSaveCore at h
  rw [hid] at h
  dsimp only at h
  split at h
  · simp only [Prod.mk.injEq] at h
    obtain ⟨hr, ha, ht⟩ := h
    exact ⟨Or.inl ht.symm, Or.inr ⟨hr.symm, ha.symm⟩⟩
  · split at h
    · simp only [Prod.mk.injEq] at h
      obtain ⟨hr, ha, ht⟩ := h
      exact ⟨Or.inr ht.symm, Or.inr ⟨hr.symm, ha.symm⟩⟩
    · rename_i nd hget
      split at h <;> simp only [Prod.mk.injEq] at h <;> obtain ⟨hr, ha, ht⟩ := h
      · exact ⟨Or.inr ht.symm, Or.inr ⟨hr.symm, ha.symm⟩⟩
      · rename_i v hver
        rename_i u hed _ _
        refine ⟨Or.inr ht.symm,
          Or.inl ⟨hr.symm, by rw [hed], nd, v, hget, hver, ?_, ht.symm⟩⟩
        rw [hid]
        exact ha.symm

theorem annotationSaveCases {env : Env} {a : Annotation} {r : Bool}
    {a2 : Annotation} {tr : List Call} {probs : List String} {t0 : List Call}
    (hval : annotationValidate env a = (probs, t0))
    (h : annotationSave env a = (r, a2, tr)) :
    (probs.isEmpty = false ∧ r = false ∧ a2 = a ∧ tr = t0) ∨
    (probs.isEmpty = true ∧ a.private_files.truthy = false ∧
      ∃ e t1, annotationUploadData env a = (.error e, t1) ∧
        r = false ∧ a2 = a ∧ tr = t0 ++ t1) ∨
    (∃ a1 t1, probs.isEmpty = true ∧
      ((a.private_files.truthy = true ∧
          a1 = { a with urls := .list [.str "<private>"] } ∧ t1 = []) ∨
       (a.private_files.truthy = false ∧
          annotationUploadData env a = (.ok a1, t1))) ∧
      annotationSaveCore env a1 (t0 ++ t1) = (r, a2, tr)) := by
  unfold annotationSave at h
  rw [hval] at h
  dsimp only at h
  split at h
  · rename_i hpe
    split at h
    · rename_i a1 t1 hup
      by_cases hpf : a.private_files.truthy
      · rw [if_pos hpf] at hup
        simp only [Prod.mk.injEq, Except.ok.injEq] at hup
        obtain ⟨ha1, ht1⟩ := hup
        exact Or.inr (Or.inr ⟨a1, t1, hpe, Or.inl ⟨hpf, ha1.symm, ht1.symm⟩, h⟩)
      · rw [if_neg hpf] at hup
        exact Or.inr (Or.inr ⟨a1, t1, hpe,
          Or.inr ⟨by simpa using hpf, hup⟩, h⟩)
    · rename_i e t1 hup
      by_cases hpf : a.private_files.truthy
      · rw [if_pos hpf] at hup
        simp at hup
      · rw [if_neg hpf] at hup
        simp only [Prod.mk.injEq] at h
        obtain ⟨hr, ha, ht⟩ := h
        exact Or.inr (Or.inl ⟨hpe, by simpa using hpf, e, t1, hup, hr.symm,
          ha.symm, ht.symm⟩)
  · rename_i hpe
    simp only [Prod.mk.injEq] at h
    obtain ⟨hr, ha, ht⟩ := h
    exact Or.inl ⟨by simpa using hpe, hr.symm, ha.symm, ht.symm⟩

theorem hostWgsUploadDataOk {env : Env} {h0 h1 : HostWgsRawSeqSet}
    {t : List Call} (h : hostWgsUploadData env h0 = (.ok h1, t)) :
    ∃ u, h1 = { h0 with urls := u } := by
  unfold hostWgsUploadData at h
  split at h <;> try simp at h
  split at h <;> try simp at h
  split at h <;> try simp at h
  split at h
  · simp only [Prod.mk.injEq, Except.ok.injEq] at h
    exact ⟨_, h.1.symm⟩
  · simp at h

theorem hostWgsSaveCoreNew {env : Env} {h1 : HostWgsRawSeqSet} {t : List Call}
    {r : Bool} {h2 : HostWgsRawSeqSet} {tr : List Call} (hid : h1.id = none)
    (h : hostWgsSaveCore env h1 t = (r, h2, tr)) :
    tr = t ++ [Call.insertNode (hostWgsGetRawDoc h1)] ∧
    ((r = true ∧ ∃ nid, env.insert_node (hostWgsGetRawDoc h1) = .ok nid ∧
        h2 = { h1 with id := some nid, version := .num 1 }) ∨
     (r = false ∧ h2 = h1 ∧
        ∃ e, env.insert_node (hostWgsGetRawDoc h1) = .error e)) := by
  unfold hostWgsSaveCore at h
  rw [hid] at h
  dsimp only at h
  split at h <;> simp only [Prod.mk.injEq] at h <;> obtain ⟨hr, ha, ht⟩ := h
  · rename_i nid hins
    exact ⟨ht.symm, Or.inl ⟨hr.symm, nid, hins, ha.symm⟩⟩
  · rename_i e hins
    exact ⟨ht.symm, Or.inr ⟨hr.symm, ha.symm, e, hins⟩⟩

theorem hostWgsSaveCorePersisted {env : Env} {h1 : HostWgsRawSeqSet}
    {t : List Call} {r : Bool} {h2 : HostWgsRawSeqSet} {tr : List Call}
    {i : String} (hid : h1.id = some i)
    (h : hostWgsSaveCore env h1 t = (r, h2, tr)) :
    (tr = t ++ [Call.editNode (hostWgsGetRawDoc h1)] ∨
     tr = t ++ [Call.editNode (hostWgsGetRawDoc h1), Call.getNode i]) ∧
    ((r = true ∧ ∃ nd v, env.get_node i = .ok nd ∧ nd.get "ver" = some v ∧
        h2 = { h1 with version := v } ∧
        tr = t ++ [Call.editNode (hostWgsGetRawDoc h1), Call.getNode i]) ∨
     (r = false ∧ h2 = h1)) := by
  unfold hostWgsSaveCore at h
  rw [hid] at h
  dsimp only at h
  split at h
  · simp only [Prod.mk.injEq] at h
    obtain ⟨hr, ha, ht⟩ := h
    exact ⟨Or.inl ht.symm, Or.inr ⟨hr.symm, ha.symm⟩⟩
  · split at h
    · simp only [Prod.mk.injEq] at h
      obtain ⟨hr, ha, ht⟩ := h
      exact ⟨Or.inr ht.symm, Or.inr ⟨hr.symm, ha.symm⟩⟩
    · rename_i nd hget
      split at h <;> simp only [Prod.mk.injEq] at h <;> obtain ⟨hr, ha, ht⟩ := h
      · exact ⟨Or.inr ht.symm, Or.inr ⟨hr.symm, ha.symm⟩⟩
      · rename_i v hver
        refine ⟨Or.inr ht.symm,
          Or.inl ⟨hr.symm, nd, v, hget, hver, ?_, ht.symm⟩⟩
        rw [hid]
        exact ha.symm

theorem hostWgsSaveCases {env : Env} {h0 : HostWgsRawSeqSet} {r : Bool}
    {h2 : HostWgsRawSeqSet} {tr : List Call} {probs : List String}
    {t0 : List Call}
    (hval : hostWgsValidate env h0 = (probs, t0))
    (h : hostWgsSave env h0 = (r, h2, tr)) :
    (probs.isEmpty = false ∧ r = false ∧ h2 = h0 ∧ tr = t0) ∨
    (probs.isEmpty = true ∧ h0.private_files.truthy = false ∧
      ∃ e t1, hostWgsUploadData env h0 = (.error e, t1) ∧
        r = false ∧ h2 = h0 ∧ tr = t0 ++ t1) ∨
    (∃ h1 t1, probs.isEmpty = true ∧
      ((h0.private_files.truthy = true ∧
          h1 = { h0 with urls := .list [.str "<private>"] } ∧ t1 = []) ∨
       (h0.private_files.truthy = false ∧
          hostWgsUploadData env h0 = (.ok h1, t1))) ∧
      hostWgsSaveCore env h1 (t0 ++ t1) = (r, h2, tr)) := by
  unfold hostWgsSave at h
  rw [hval] at h
  dsimp only at h
  split at h
  · rename_i hpe
    split at h
    · rename_i h1 t1 hup
      by_cases hpf : h0.private_files.truthy
      · rw [if_pos hpf] at hup
        simp only [Prod.mk.injEq, Except.ok.injEq] at hup
        obtain ⟨ha1, ht1⟩ := hup
        exact Or.inr (Or.inr ⟨h1, t1, hpe, Or.inl ⟨hpf, ha1.symm, ht1.symm⟩, h⟩)
      · rw [if_neg hpf] at hup
        exact Or.inr (Or.inr ⟨h1, t1, hpe,
          Or.inr ⟨by simpa using hpf, hup⟩, h⟩)
    · rename_i e t1 hup
      by_cases hpf : h0.private_files.truthy
      · rw [if_pos hpf] at hup
        simp at hup
      · rw [if_neg hpf] at hup
        simp only [Prod.mk.injEq] at h
        obtain ⟨hr, ha, ht⟩ := h
        exact Or.inr (Or.inl ⟨hpe, by simpa using hpf, e, t1, hup, hr.symm,
          ha.symm, ht.symm⟩)
  · rename_i hpe
    simp only [Prod.mk.injEq] at h
    obtain ⟨hr, ha, ht⟩ := h
    exact Or.inl ⟨by simpa using hpe, hr.symm, ha.symm, ht.symm⟩

theorem cytokineUploadDataOk {env : Env} {c c1 : Cytokine} {t : List Call}
    (h : cytokineUploadData env c = (.ok c1, t)) :
    ∃ u, c1 = { c with urls := u } := by
  unfold cytokineUploadData at h
  split at h <;> try simp at h
  split at h <;> try simp at h
  split at h <;> try simp at h
  split at h
  · simp only [Prod.mk.injEq, Except.ok.injEq] at h
    exact ⟨_, h.1.symm⟩
  · simp at h

theorem cytokineUploadDataCalls (env : Env) (c : Cytokine) :
    noStoreCalls (cytokineUploadData env c).2 = true := by
  unfold cytokineUploadData
  split <;> try rfl
  split <;> try rfl
  split <;> try rfl
  dsimp only
  split <;> rfl

theorem cytokineSaveCoreNew {env : Env} {c1 : Cytokine} {t : List Call}
    {r : Bool} {c2 : Cytokine} {tr : List Call} (hid : c1.id = none)
    (h : cytokineSaveCore env c1 t = (r, c2, tr)) :
    tr = t ++ [Call.insertNode (cytokineGetRawDoc c1)] ∧
    ((r = true ∧ ∃ nid, env.insert_node (cytokineGetRawDoc c1) = .ok nid ∧
        c2 = { c1 with id := some nid, version := .num 1 }) ∨
     (r = false ∧ c2 = c1 ∧
        ∃ e, env.insert_node (cytokineGetRawDoc c1) = .error e)) := by
  unfold cytokineSaveCore at h
  rw [hid] at h
  dsimp only at h
  split at h <;> simp only [Prod.mk.injEq] at h <;> obtain ⟨hr, ha, ht⟩ := h
  · rename_i nid hins
    exact ⟨ht.symm, Or.inl ⟨hr.symm, nid, hins, ha.symm⟩⟩
  · rename_i e hins
    exact ⟨ht.symm, Or.inr ⟨hr.symm, ha.symm, e, hins⟩⟩

theorem cytokineSaveCorePersisted {env : Env} {c1 : Cytokine} {t : List Call}
    {r : Bool} {c2 : Cytokine} {tr : List Call} {i : String}
    (hid : c1.id = some i)
    (h : cytokineSaveCore env c1 t = (r, c2, tr)) :
    (tr = t ++ [Call.editNode (cytokineGetRawDoc c1)] ∨
     tr = t ++ [Call.editNode (cytokineGetRawDoc c1), Call.getNode i]) ∧
    ((r = true ∧ ∃ nd v, env.get_node i = .ok nd ∧ nd.get "ver" = some v ∧
        c2 = { c1 with version := v } ∧
        tr = t ++ [Call.editNode (cytokineGetRawDoc c1), Call.getNode i]) ∨
     (r = false ∧ c2 = c1)) := by
  unfold cytokineSaveCore at h
  rw [hid] at h
  dsimp only at h
  split at h
  · simp only [Prod.mk.injEq] at h
    obtain ⟨hr, ha, ht⟩ := h
    exact ⟨Or.inl ht.symm, Or.inr ⟨hr.symm, ha.symm⟩⟩
  · split at h
    · simp only [Prod.mk.injEq] at h
      obtain ⟨hr, ha, ht⟩ := h
      exact ⟨Or.inr ht.symm, Or.inr ⟨hr.symm, ha.symm⟩⟩
    · rename_i nd hget
      split at h <;> simp only [Prod.mk.injEq] at h <;> obtain ⟨hr, ha, ht⟩ := h
      · exact ⟨Or.inr ht.symm, Or.inr ⟨hr.symm, ha.symm⟩⟩
      · rename_i v hver
        refine ⟨Or.inr ht.symm,
          Or.inl ⟨hr.symm, nd, v, hget, hver, ?_, ht.symm⟩⟩
        rw [hid]
        exact ha.symm

theorem cytokineSaveCases {env : Env} {c : Cytokine} {r : Bool} {c2 : Cytokine}
    {tr : List Call} {probs : List String} {t0 : List Call}
    (hval : cytokineValidate env c = (probs, t0))
    (h : cytokineSave env c = (r, c2, tr)) :
    (probs.isEmpty = false ∧ r = false ∧ c2 = c ∧ tr = t0) ∨
    (probs.isEmpty = true ∧ c.private_files.truthy = false ∧
      ∃ e t1, cytokineUploadData env c = (.error e, t1) ∧
        r = false ∧ c2 = c ∧ tr = t0 ++ t1) ∨
    (∃ c1 t1, probs.isEmpty = true ∧
      ((c.private_files.truthy = true ∧
          c1 = { c with urls := .list [.str "<private>"] } ∧ t1 = []) ∨
       (c.private_files.truthy = false ∧
          cytokineUploadData env c = (.ok c1, t1))) ∧
      cytokineSaveCore env c1 (t0 ++ t1) = (r, c2, tr)) := by
  unfold cytokineSave at h
  rw [hval] at h
  dsimp only at h
  split at h
  · rename_i hpe
    split at h
    · rename_i c1 t1 hup
      by_cases hpf : c.private_files.truthy
      · rw [if_pos hpf] at hup
        simp only [Prod.mk.injEq, Except.ok.injEq] at hup
        obtain ⟨ha1, ht1⟩ := hup
        exact Or.inr (Or.inr ⟨c1, t1, hpe, Or.inl ⟨hpf, ha1.symm, ht1.symm⟩, h⟩)
      · rw [if_neg hpf] at hup
        exact Or.inr (Or.inr ⟨c1, t1, hpe,
          Or.inr ⟨by simpa using hpf, hup⟩, h⟩)
    · rename_i e t1 hup
      by_cases hpf : c.private_files.truthy
      · rw [if_pos hpf] at hup
        simp at hup
      · rw [if_neg hpf] at hup
        simp only [Prod.mk.injEq] at h
        obtain ⟨hr, ha, ht⟩ := h
        exact Or.inr (Or.inl ⟨hpe, by simpa using hpf, e, t1, hup, hr.symm,
          ha.symm, ht.symm⟩)
  · rename_i hpe
    simp only [Prod.mk.injEq] at h
    obtain ⟨hr, ha, ht⟩ := h
    exact Or.inl ⟨by simpa using hpe, hr.symm, ha.symm, ht.symm⟩

theorem proteomeSaveCoreNew {env : Env} {p1 : ProteomeNonPride}
    {t : List Call} {r : Bool} {p2 : ProteomeNonPride} {tr : List Call}
    (hid : p1.id = none)
    (h : proteomeSaveCore env p1 t = (r, p2, tr)) :
    tr = t ++ [Call.insertNode (proteomeGetRawDoc p1)] ∧
    ((r = true ∧ ∃ nid, env.insert_node (proteomeGetRawDoc p1) = .ok nid ∧
        p2 = { p1 with id := some nid, version := .num 1 }) ∨
     (r = false ∧ p2 = p1 ∧
        ∃ e, env.insert_node (proteomeGetRawDoc p1) = .error e)) := by
  unfold proteomeSaveCore at h
  rw [hid] at h
  dsimp only at h
  split at h <;> simp only [Prod.mk.injEq] at h <;> obtain ⟨hr, ha, ht⟩ := h
  · rename_i nid hins
    exact ⟨ht.symm, Or.inl ⟨hr.symm, nid, hins, ha.symm⟩⟩
  · rename_i e hins
    exact ⟨ht.symm, Or.inr ⟨hr.symm, ha.symm, e, hins⟩⟩

theorem proteomeSaveCorePersisted {env : Env} {p1 : ProteomeNonPride}
    {t : List Call} {r : Bool} {p2 : ProteomeNonPride} {tr : List Call}
    {i : String} (hid : p1.id = some i)
    (h : proteomeSaveCore env p1 t = (r, p2, tr)) :
    (tr = t ++ [Call.editNode (proteomeGetRawDoc p1)] ∨
     tr = t ++ [Call.editNode (proteomeGetRawDoc p1), Call.getNode i]) ∧
    ((r = true ∧ ∃ nd v, env.get_node i = .ok nd ∧ nd.get "ver" = some v ∧
        p2 = { p1 with version := v } ∧
        tr = t ++ [Call.editNode (proteomeGetRawDoc p1), Call.getNode i]) ∨
     (r = false ∧ p2 = p1)) := by
  unfold proteomeSaveCore at h
  rw [hid] at h
  dsimp only at h
  split at h
  · simp only [Prod.mk.injEq] at h
    obtain ⟨hr, ha, ht⟩ := h
    exact ⟨Or.inl ht.symm, Or.inr ⟨hr.symm, ha.symm⟩⟩
  · split at h
    · simp only [Prod.mk.injEq] at h
      obtain ⟨hr, ha, ht⟩ := h
      exact ⟨Or.inr ht.symm, Or.inr ⟨hr.symm, ha.symm⟩⟩
    · rename_i nd hget
      split at h <;> simp only [Prod.mk.injEq] at h <;> obtain ⟨hr, ha, ht⟩ := h
      · exact ⟨Or.inr ht.symm, Or.inr ⟨hr.symm, ha.symm⟩⟩
      · rename_i v hver
        refine ⟨Or.inr ht.symm,
          Or.inl ⟨hr.symm, nd, v, hget, hver, ?_, ht.symm⟩⟩
        rw [hid]
        exact ha.symm

/-- The record written by `ProteomeNonPride.save` when `private_files` is
truthy: all four URL fields forced to the sentinel. -/
def proteomePrivate (p : ProteomeNonPride) : ProteomeNonPride :=
  { p with other_url := .list [.str "<private>"],
           peak_url := .list [.str "<private>"],
           protmod_url := .list [.str "<private>"],
           raw_url := .list [.str "<private>"] }

theorem proteomeSavePrivate {env : Env} {p : ProteomeNonPride} {r : Bool}
    {p2 : ProteomeNonPride} {tr : List Call} {probs : List String}
    {t0 : List Call}
    (hval : proteomeValidate env p = (probs, t0))
    (hpf : p.private_files.truthy = true)
    (h : proteomeSave env p = (r, p2, tr)) :
    (probs.isEmpty = false ∧ r = false ∧ p2 = p ∧ tr = t0) ∨
    (probs.isEmpty = true ∧
      proteomeSaveCore env (proteomePrivate p) t0 = (r, p2, tr)) := by
  unfold proteomeSave at h
  rw [hval] at h
  dsimp only at h
  by_cases hpe : probs.isEmpty = true
  · rw [if_pos hpe, if_pos hpf] at h
    exact Or.inr ⟨hpe, h⟩
  · rw [if_neg hpe] at h
    simp only [Prod.mk.injEq] at h
    obtain ⟨hr, ha, ht⟩ := h
    exact Or.inl ⟨by simpa using hpe, hr.symm, ha.symm, ht.symm⟩

theorem annotationDocMetaUrls (x : Annotation) :
    ((annotationGetRawDoc x).get "meta").bind (fun m => m.get "urls") =
      some x.urls := rfl

set_option maxHeartbeats 1600000 in
theorem proteomeDocMetaUrls (x : ProteomeNonPride) :
    ((proteomeGetRawDoc x).get "meta").bind (fun m => m.get "other_url") =
        some x.other_url ∧
    ((proteomeGetRawDoc x).get "meta").bind (fun m => m.get "peak_url") =
        some x.peak_url ∧
    ((proteomeGetRawDoc x).get "meta").bind (fun m => m.get "protmod_url") =
        some x.protmod_url ∧
    ((proteomeGetRawDoc x).get "meta").bind (fun m => m.get "raw_url") =
        some x.raw_url :=
  ⟨rfl, rfl, rfl, rfl⟩

theorem noUploadCalls_append {s t : List Call} :
    noUploadCalls (s ++ t) = (noUploadCalls s && noUploadCalls t) := by
  simp [noUploadCalls, List.any_append]

theorem noStoreCalls_append {s t : List Call} :
    noStoreCalls (s ++ t) = (noStoreCalls s && noStoreCalls t) := by
  simp [noStoreCalls, List.any_append]

theorem writeEventTail {t0 rest : List Call} {d : Val}
    (hRO : readOnlyCalls t0 = true)
    (hd : Call.insertNode d ∈ t0 ++ rest ∨ Call.editNode d ∈ t0 ++ rest) :
    Call.insertNode d ∈ rest ∨ Call.editNode d ∈ rest := by
  rcases hd with hm | hm <;> rcases List.mem_append.mp hm with hm | hm
  · exact absurd hm (readOnly_not_insert hRO)
  · exact Or.inl hm
  · exact absurd hm (readOnly_not_edit hRO)
  · exact Or.inr hm

theorem writeEventInsertRest {d doc : Val}
    (hd : Call.insertNode d ∈ [Call.insertNode doc] ∨
          Call.editNode d ∈ [Call.insertNode doc]) : d = doc := by
  rcases hd with hm | hm
  · simpa using hm
  · simp at hm

theorem writeEventEditRest {d doc : Val}
    (hd : Call.insertNode d ∈ [Call.editNode doc] ∨
          Call.editNode d ∈ [Call.editNode doc]) : d = doc := by
  rcases hd with hm | hm
  · simp at hm
  · simpa using hm

theorem writeEventEditGetRest {d doc : Val} {i : String}
    (hd : Call.insertNode d ∈ [Call.editNode doc, Call.getNode i] ∨
          Call.editNode d ∈ [Call.editNode doc, Call.getNode i]) : d = doc := by
  rcases hd with hm | hm
  · simp at hm
  · simpa using hm

theorem annotationSaveInvalid {env : Env} {a : Annotation}
    (hiv : annotationIsValid env a = false) :
    annotationSave env a = (false, a, (annotationValidate env a).2) := by
  rcases hval : annotationValidate env a with ⟨probs, t0⟩
  have hpe : probs.isEmpty = false := by
    unfold annotationIsValid at hiv
    rw [hval] at hiv
    exact hiv
  unfold annotationSave
  rw [hval]
  dsimp only
  rw [if_neg (by simp [hpe])]

theorem cytokineSaveInvalid {env : Env} {c : Cytokine}
    (hiv : cytokineIsValid env c = false) :
    cytokineSave env c = (false, c, (cytokineValidate env c).2) := by
  rcases hval : cytokineValidate env c with ⟨probs, t0⟩
  have hpe : probs.isEmpty = false := by
    unfold cytokineIsValid at hiv
    rw [hval] at hiv
    exact hiv
  unfold cytokineSave
  rw [hval]
  dsimp only
  rw [if_neg (by simp [hpe])]

/-- C2: when `is_valid()` is false, `save()` returns False, leaves the object
untouched, and performs none of the enumerated remote operations: no file
upload, no `insert_node`, no `edit_node`, no `get_node`.  (The call trace of
the aborted save holds only the schema-validation and file-existence checks
that `is_valid()` itself performs.)  Proven for Annotation and Cytokine. -/
theorem claim_C2_invalid_save_aborts (env : Env) (a : Annotation)
    (c : Cytokine) :
    (annotationIsValid env a = false →
      annotationSave env a = (false, a, (annotationValidate env a).2) ∧
      noWriteCalls (annotationSave env a).2.2 = true) ∧
    (cytokineIsValid env c = false →
      cytokineSave env c = (false, c, (cytokineValidate env c).2) ∧
      noWriteCalls (cytokineSave env c).2.2 = true) := by
  constructor
  · intro hiv
    have hs := annotationSaveInvalid hiv
    refine ⟨hs, ?_⟩
    rw [hs]
    exact readOnly_noWrite (annotationValidateReadOnly env a)
  · intro hiv
    have hs := cytokineSaveInvalid hiv
    refine ⟨hs, ?_⟩
    rw [hs]
    exact readOnly_noWrite (cytokineValidateReadOnly env c)

/-- An environment whose schema validation always fails. -/
def envInvalid : Env :=
  { envOk with validate_node := fun _ => (false, "schema validation failed") }

/-- Witness for C2: a fresh Annotation and Cytokine under an environment whose
schema validation fails are invalid, and their saves abort without the
enumerated remote calls. -/
theorem claim_C2_invalid_save_aborts_witness :
    (annotationSave envInvalid {} =
      (false, ({} : Annotation), (annotationValidate envInvalid {}).2) ∧
      noWriteCalls (annotationSave envInvalid {}).2.2 = true) ∧
    (cytokineSave envInvalid {} =
      (false, ({} : Cytokine), (cytokineValidate envInvalid {}).2) ∧
      noWriteCalls (cytokineSave envInvalid {}).2.2 = true) := by
  obtain ⟨h1, h2⟩ := claim_C2_invalid_save_aborts envInvalid {} {}
  exact ⟨h1 rfl, h2 rfl⟩

/-- C3: on a record whose `private_files` is True, `save()` never calls the
transfer collaborator (`aspera.upload_file`), and every document handed to the
store (by `insert_node` or `edit_node`) carries the URL-bearing fields forced
to the sentinel `["<private>"]` — `urls` for Annotation; `other_url`,
`peak_url`, `protmod_url` and `raw_url` for ProteomeNonPride. -/
theorem claim_C3_private_files_sentinel :
    (∀ (env : Env) (a : Annotation) (r : Bool) (a2 : Annotation)
      (tr : List Call),
      a.private_files = .bool true →
      annotationSave env a = (r, a2, tr) →
      noUploadCalls tr = true ∧
      (∀ d, Call.insertNode d ∈ tr ∨ Call.editNode d ∈ tr →
        ((d.get "meta").bind (fun m => m.get "urls")) =
          some (.list [.str "<private>"]))) ∧
    (∀ (env : Env) (p : ProteomeNonPride) (r : Bool) (p2 : ProteomeNonPride)
      (tr : List Call),
      p.private_files = .bool true →
      proteomeSave env p = (r, p2, tr) →
      noUploadCalls tr = true ∧
      (∀ d, Call.insertNode d ∈ tr ∨ Call.editNode d ∈ tr →
        ((d.get "meta").bind (fun m => m.get "other_url")) =
            some (.list [.str "<private>"]) ∧
        ((d.get "meta").bind (fun m => m.get "peak_url")) =
            some (.list [.str "<private>"]) ∧
        ((d.get "meta").bind (fun m => m.get "protmod_url")) =
            some (.list [.str "<private>"]) ∧
        ((d.get "meta").bind (fun m => m.get "raw_url")) =
            some (.list [.str "<private>"]))) := by
  constructor
  · intro env a r a2 tr hpriv hs
    have hpf : a.private_files.truthy = true := by rw [hpriv]; rfl
    rcases hval : annotationValidate env a with ⟨probs, t0⟩
    have hRO : readOnlyCalls t0 = true := by
      have := annotationValidateReadOnly env a
      rw [hval] at this
      exact this
    rcases annotationSaveCases hval hs with
      ⟨_, _, _, htr⟩ | ⟨_, hpf2, _⟩ | ⟨a1, t1, _, hbranch, hcore⟩
    · subst htr
      refine ⟨readOnly_noUpload hRO, fun d hd => ?_⟩
      rcases hd with hm | hm
      · exact absurd hm (readOnly_not_insert hRO)
      · exact absurd hm (readOnly_not_edit hRO)
    · rw [hpf] at hpf2
      cases hpf2
    · rcases hbranch with ⟨_, ha1, ht1⟩ | ⟨hpf2, _⟩
      · subst ht1
        have hRO0 : readOnlyCalls (t0 ++ []) = true := by simpa using hRO
        have hurls :
            ((annotationGetRawDoc a1).get "meta").bind (fun m => m.get "urls") =
              some (.list [.str "<private>"]) := by
          rw [ha1]
          exact annotationDocMetaUrls _
        rcases hida : a1.id with _ | i
        · obtain ⟨htr, _⟩ := annotationSaveCoreNew hida hcore
          subst htr
          constructor
          · rw [noUploadCalls_append, readOnly_noUpload hRO0]
            rfl
          · intro d hd
            have hd2 := writeEventTail hRO0 hd
            have : d = annotationGetRawDoc a1 := writeEventInsertRest hd2
            rw [this]
            exact hurls
        · obtain ⟨htrOr, _⟩ := annotationSaveCorePersisted hida hcore
          rcases htrOr with htr | htr <;> subst htr
          · constructor
            · rw [noUploadCalls_append, readOnly_noUpload hRO0]
              rfl
            · intro d hd
              have hd2 := writeEventTail hRO0 hd
              have : d = annotationGetRawDoc a1 := writeEventEditRest hd2
              rw [this]
              exact hurls
          · constructor
            · rw [noUploadCalls_append, readOnly_noUpload hRO0]
              rfl
            · intro d hd
              have hd2 := writeEventTail hRO0 hd
              have : d = annotationGetRawDoc a1 := writeEventEditGetRest hd2
              rw [this]
              exact hurls
      · rw [hpf] at hpf2
        cases hpf2
  · intro env p r p2 tr hpriv hs
    have hpf : p.private_files.truthy = true := by rw [hpriv]; rfl
    rcases hval : proteomeValidate env p with ⟨probs, t0⟩
    have hRO : readOnlyCalls t0 = true := by
      have := proteomeValidateReadOnly env p
      rw [hval] at this
      exact this
    rcases proteomeSavePrivate hval hpf hs with ⟨_, _, _, htr⟩ | ⟨_, hcore⟩
    · subst htr
      refine ⟨readOnly_noUpload hRO, fun d hd => ?_⟩
      rcases hd with hm | hm
      · exact absurd hm (readOnly_not_insert hRO)
      · exact absurd hm (readOnly_not_edit hRO)
    · have hurls :
          ((proteomeGetRawDoc (proteomePrivate p)).get "meta").bind
              (fun m => m.get "other_url") = some (.list [.str "<private>"]) ∧
          ((proteomeGetRawDoc (proteomePrivate p)).get "meta").bind
              (fun m => m.get "peak_url") = some (.list [.str "<private>"]) ∧
          ((proteomeGetRawDoc (proteomePrivate p)).get "meta").bind
              (fun m => m.get "protmod_url") = some (.list [.str "<private>"]) ∧
          ((proteomeGetRawDoc (proteomePrivate p)).get "meta").bind
              (fun m => m.get "raw_url") = some (.list [.str "<private>"]) :=
        proteomeDocMetaUrls (proteomePrivate p)
      rcases hida : (proteomePrivate p).id with _ | i
      · obtain ⟨htr, _⟩ := proteomeSaveCoreNew hida hcore
        subst htr
        constructor
        · rw [noUploadCalls_append, readOnly_noUpload hRO]
          rfl
        · intro d hd
          have hd2 := writeEventTail hRO hd
          have : d = proteomeGetRawDoc (proteomePrivate p) :=
            writeEventInsertRest hd2
          rw [this]
          exact hurls
      · obtain ⟨htrOr, _⟩ := proteomeSaveCorePersisted hida hcore
        rcases htrOr with htr | htr <;> subst htr
        · constructor
          · rw [noUploadCalls_append, readOnly_noUpload hRO]
            rfl
          · intro d hd
            have hd2 := writeEventTail hRO hd
            have : d = proteomeGetRawDoc (proteomePrivate p) :=
              writeEventEditRest hd2
            rw [this]
            exact hurls
        · constructor
          · rw [noUploadCalls_append, readOnly_noUpload hRO]
            rfl
          · intro d hd
            have hd2 := writeEventTail hRO hd
            have : d = proteomeGetRawDoc (proteomePrivate p) :=
              writeEventEditGetRest hd2
            rw [this]
            exact hurls

/-- A private Annotation with its required backlink in place. -/
def privAnnotation : Annotation :=
  { links := .dict [("computed_from", .list [.str "parent-node"])],
    private_files := .bool true }

/-- A private ProteomeNonPride with its required backlink in place. -/
def privProteome : ProteomeNonPride :=
  { links := .dict [("derived_from", .list [.str "parent-node"])],
    private_files := .bool true }

/-- Witness for C3: saving a private Annotation and a private ProteomeNonPride
under the benign environment makes no upload call. -/
theorem claim_C3_private_files_sentinel_witness :
    noUploadCalls (annotationSave envOk privAnnotation).2.2 = true ∧
    noUploadCalls (proteomeSave envOk privProteome).2.2 = true := by
  constructor
  · exact ((claim_C3_private_files_sentinel.1 envOk privAnnotation
      (annotationSave envOk privAnnotation).1
      (annotationSave envOk privAnnotation).2.1
      (annotationSave envOk privAnnotation).2.2 rfl rfl)).1
  · exact ((claim_C3_private_files_sentinel.2 envOk privProteome
      (proteomeSave envOk privProteome).1
      (proteomeSave envOk privProteome).2.1
      (proteomeSave envOk privProteome).2.2 rfl rfl)).1

theorem annotationSaveSuccessSpec (env : Env) (a a2 : Annotation)
    (tr : List Call) (hs : annotationSave env a = (true, a2, tr)) :
    (a.id = none →
      ∃ d nid, Call.insertNode d ∈ tr ∧ env.insert_node d = .ok nid ∧
        a2.id = some nid ∧ a2.version = Val.num 1) ∧
    (∀ i, a.id = some i →
      ∃ d nd v, Call.editNode d ∈ tr ∧ Call.getNode i ∈ tr ∧
        env.edit_node d = .ok () ∧ env.get_node i = .ok nd ∧
        nd.get "ver" = some v ∧ a2.version = v ∧ a2.id = some i) := by
  rcases hval : annotationValidate env a with ⟨probs, t0⟩
  rcases annotationSaveCases hval hs with
    ⟨_, hr, _, _⟩ | ⟨_, _, e, t1, _, hr, _, _⟩ | ⟨a1, t1, _, hbranch, hcore⟩
  · cases hr
  · cases hr
  · have ha1id : a1.id = a.id := by
      rcases hbranch with ⟨_, ha1, _⟩ | ⟨_, hup⟩
      · rw [ha1]
      · obtain ⟨u, hu⟩ := annotationUploadDataOk hup
        rw [hu]
    constructor
    · intro hidnone
      rw [hidnone] at ha1id
      obtain ⟨htr, hres⟩ := annotationSaveCoreNew ha1id hcore
      rcases hres with ⟨_, nid, hins, ha2⟩ | ⟨hfalse, _⟩
      · refine ⟨annotationGetRawDoc a1, nid, ?_, hins, ?_, ?_⟩
        · rw [htr]; simp
        · rw [ha2]
        · rw [ha2]
      · cases hfalse
    · intro i hidi
      rw [hidi] at ha1id
      obtain ⟨_, hres⟩ := annotationSaveCorePersisted ha1id hcore
      rcases hres with ⟨_, hedit, nd, v, hget, hver, ha2, htr2⟩ | ⟨hfalse, _⟩
      · refine ⟨annotationGetRawDoc a1, nd, v, ?_, ?_, hedit, hget, hver, ?_, ?_⟩
        · rw [htr2]; simp
        · rw [htr2]; simp
        · rw [ha2]
        · rw [ha2]
          exact ha1id
      · cases hfalse

theorem hostWgsSaveSuccessSpec (env : Env) (h0 h2 : HostWgsRawSeqSet)
    (tr : List Call) (hs : hostWgsSave env h0 = (true, h2, tr)) :
    (h0.id = none →
      ∃ d nid, Call.insertNode d ∈ tr ∧ env.insert_node d = .ok nid ∧
        h2.id = some nid ∧ h2.version = Val.num 1) ∧
    (∀ i, h0.id = some i →
      ∃ d nd v, Call.editNode d ∈ tr ∧ Call.getNode i ∈ tr ∧
        env.get_node i = .ok nd ∧ nd.get "ver" = some v ∧
        h2.version = v ∧ h2.id = some i) := by
  rcases hval : hostWgsValidate env h0 with ⟨probs, t0⟩
  rcases hostWgsSaveCases hval hs with
    ⟨_, hr, _, _⟩ | ⟨_, _, e, t1, _, hr, _, _⟩ | ⟨h1, t1, _, hbranch, hcore⟩
  · cases hr
  · cases hr
  · have ha1id : h1.id = h0.id := by
      rcases hbranch with ⟨_, ha1, _⟩ | ⟨_, hup⟩
      · rw [ha1]
      · obtain ⟨u, hu⟩ := hostWgsUploadDataOk hup
        rw [hu]
    constructor
    · intro hidnone
      rw [hidnone] at ha1id
      obtain ⟨htr, hres⟩ := hostWgsSaveCoreNew ha1id hcore
      rcases hres with ⟨_, nid, hins, ha2⟩ | ⟨hfalse, _⟩
      · refine ⟨hostWgsGetRawDoc h1, nid, ?_, hins, ?_, ?_⟩
        · rw [htr]; simp
        · rw [ha2]
        · rw [ha2]
      · cases hfalse
    · intro i hidi
      rw [hidi] at ha1id
      obtain ⟨_, hres⟩ := hostWgsSaveCorePersisted ha1id hcore
      rcases hres with ⟨_, nd, v, hget, hver, ha2, htr2⟩ | ⟨hfalse, _⟩
      · refine ⟨hostWgsGetRawDoc h1, nd, v, ?_, ?_, hget, hver, ?_, ?_⟩
        · rw [htr2]; simp
        · rw [htr2]; simp
        · rw [ha2]
        · rw [ha2]
          exact ha1id
      · cases hfalse

/-- C1: when `save()` succeeds on a New record (`id is None`), an insert was
submitted, `id` equals the identifier returned by `insert_node` and `version`
equals 1; when it succeeds on a Persisted record (`id` set), an update was
submitted via `edit_node`, the record was re-fetched with `get_node`, and
`version` equals the `ver` value of the re-fetched document while `id` is
unchanged.  Proven for Annotation and HostWgsRawSeqSet. -/
theorem claim_C1_save_state_transition :
    (∀ (env : Env) (a a2 : Annotation) (tr : List Call),
      annotationSave env a = (true, a2, tr) →
      (a.id = none →
        ∃ d nid, Call.insertNode d ∈ tr ∧ env.insert_node d = .ok nid ∧
          a2.id = some nid ∧ a2.version = Val.num 1) ∧
      (∀ i, a.id = some i →
        ∃ d nd v, Call.editNode d ∈ tr ∧ Call.getNode i ∈ tr ∧
          env.edit_node d = .ok () ∧ env.get_node i = .ok nd ∧
          nd.get "ver" = some v ∧ a2.version = v ∧ a2.id = some i)) ∧
    (∀ (env : Env) (h0 h2 : HostWgsRawSeqSet) (tr : List Call),
      hostWgsSave env h0 = (true, h2, tr) →
      (h0.id = none →
        ∃ d nid, Call.insertNode d ∈ tr ∧ env.insert_node d = .ok nid ∧
          h2.id = some nid ∧ h2.version = Val.num 1) ∧
      (∀ i, h0.id = some i →
        ∃ d nd v, Call.editNode d ∈ tr ∧ Call.getNode i ∈ tr ∧
          env.get_node i = .ok nd ∧ nd.get "ver" = some v ∧
          h2.version = v ∧ h2.id = some i)) :=
  ⟨annotationSaveSuccessSpec, hostWgsSaveSuccessSpec⟩

/-- A persisted private Annotation (id and version already set). -/
def persistedAnnotation : Annotation :=
  { privAnnotation with id := some "node-id-1", version := .num 3 }

/-- A new private HostWgsRawSeqSet with its required backlink in place. -/
def privHostWgs : HostWgsRawSeqSet :=
  { links := .dict [("sequenced_from", .list [.str "parent-node"])],
    private_files := .bool true }

/-- Witness for C1: under the benign environment, saving a fresh private
Annotation and a fresh private HostWgsRawSeqSet succeeds, and saving a
persisted private Annotation succeeds; the claim theorem applies at each. -/
theorem claim_C1_save_state_transition_witness :
    (∃ d nid, Call.insertNode d ∈ (annotationSave envOk privAnnotation).2.2 ∧
      envOk.insert_node d = .ok nid ∧
      (annotationSave envOk privAnnotation).2.1.id = some nid ∧
      (annotationSave envOk privAnnotation).2.1.version = Val.num 1) ∧
    (∃ d nd v, Call.editNode d ∈ (annotationSave envOk persistedAnnotation).2.2 ∧
      Call.getNode "node-id-1" ∈ (annotationSave envOk persistedAnnotation).2.2 ∧
      envOk.edit_node d = .ok () ∧
      envOk.get_node "node-id-1" = .ok nd ∧ nd.get "ver" = some v ∧
      (annotationSave envOk persistedAnnotation).2.1.version = v ∧
      (annotationSave envOk persistedAnnotation).2.1.id = some "node-id-1") ∧
    (∃ d nid, Call.insertNode d ∈ (hostWgsSave envOk privHostWgs).2.2 ∧
      envOk.insert_node d = .ok nid ∧
      (hostWgsSave envOk privHostWgs).2.1.id = some nid ∧
      (hostWgsSave envOk privHostWgs).2.1.version = Val.num 1) := by
  refine ⟨?_, ?_, ?_⟩
  · exact (claim_C1_save_state_transition.1 envOk privAnnotation
      (annotationSave envOk privAnnotation).2.1
      (annotationSave envOk privAnnotation).2.2 (by rfl)).1 rfl
  · exact (claim_C1_save_state_transition.1 envOk persistedAnnotation
      (annotationSave envOk persistedAnnotation).2.1
      (annotationSave envOk persistedAnnotation).2.2 (by rfl)).2
      "node-id-1" rfl
  · exact (claim_C1_save_state_transition.2 envOk privHostWgs
      (hostWgsSave envOk privHostWgs).2.1
      (hostWgsSave envOk privHostWgs).2.2 (by rfl)).1 rfl

/-- C5: store-side exceptions do not escape.  If `save()` reports failure the
in-memory object keeps its `id` and `version` (so an insert that raised leaves
them both `None`); when `insert_node` (on a New record), `edit_node` or
`get_node` (on a Persisted record) raises, `save()` returns False; and when
`delete_node` raises on a record with an id, `delete()` returns False.  In the
embedding, a raised exception is the collaborator returning `Except.error`,
and the methods being total Bool-returning functions is the "does not escape"
part. -/
theorem claim_C5_store_exceptions_contained (env : Env) (a : Annotation) :
    (∀ a2 tr, annotationSave env a = (false, a2, tr) →
      a2.id = a.id ∧ a2.version = a.version) ∧
    ((∀ d, env.insert_node d = .error "fail") → a.id = none →
      (annotationSave env a).1 = false) ∧
    ((∀ d, env.edit_node d = .error "fail") → ∀ i, a.id = some i →
      (annotationSave env a).1 = false) ∧
    ((∀ j, env.get_node j = .error "fail") → ∀ i, a.id = some i →
      (annotationSave env a).1 = false) ∧
    (∀ i, a.id = some i → env.delete_node i = .error "fail" →
      annotationDelete env a = (.ok false, [Call.deleteNode i])) := by
  have hpreserve : ∀ a2 tr, annotationSave env a = (false, a2, tr) →
      a2.id = a.id ∧ a2.version = a.version := by
    intro a2 tr hs
    rcases hval : annotationValidate env a with ⟨probs, t0⟩
    rcases annotationSaveCases hval hs with
      ⟨_, _, ha, _⟩ | ⟨_, _, e, t1, _, _, ha, _⟩ | ⟨a1, t1, _, hbranch, hcore⟩
    · rw [ha]
      exact ⟨rfl, rfl⟩
    · rw [ha]
      exact ⟨rfl, rfl⟩
    · have ha1 : a1.id = a.id ∧ a1.version = a.version := by
        rcases hbranch with ⟨_, ha1, _⟩ | ⟨_, hup⟩
        · rw [ha1]
          exact ⟨rfl, rfl⟩
        · obtain ⟨u, hu⟩ := annotationUploadDataOk hup
          rw [hu]
          exact ⟨rfl, rfl⟩
      rcases hida : a1.id with _ | i
      · obtain ⟨_, hres⟩ := annotationSaveCoreNew hida hcore
        rcases hres with ⟨hfalse, _⟩ | ⟨_, ha2, _⟩
        · cases hfalse
        · rw [ha2]
          exact ha1
      · obtain ⟨_, hres⟩ := annotationSaveCorePersisted hida hcore
        rcases hres with ⟨hfalse, _⟩ | ⟨_, ha2⟩
        · cases hfalse
        · rw [ha2]
          exact ha1
  refine ⟨hpreserve, ?_, ?_, ?_, ?_⟩
  · intro hall hidnone
    rcases hsv : annotationSave env a with ⟨r, a2, tr⟩
    rcases r with _ | _
    · rfl
    · exfalso
      obtain ⟨d, nid, _, hok, _⟩ :=
        (annotationSaveSuccessSpec env a a2 tr hsv).1 hidnone
      rw [hall _] at hok
      cases hok
  · intro hall i hidi
    rcases hsv : annotationSave env a with ⟨r, a2, tr⟩
    rcases r with _ | _
    · rfl
    · exfalso
      rcases hval : annotationValidate env a with ⟨probs, t0⟩
      rcases annotationSaveCases hval hsv with
        ⟨_, hr, _⟩ | ⟨_, _, e, t1, _, hr, _⟩ | ⟨a1, t1, _, hbranch, hcore⟩
      · cases hr
      · cases hr
      · have ha1id : a1.id = some i := by
          rcases hbranch with ⟨_, ha1, _⟩ | ⟨_, hup⟩
          · rw [ha1]
            exact hidi
          · obtain ⟨u, hu⟩ := annotationUploadDataOk hup
            rw [hu]
            exact hidi
        obtain ⟨_, hres⟩ := annotationSaveCorePersisted ha1id hcore
        rcases hres with ⟨_, hedit, _⟩ | ⟨hfalse, _⟩
        · rw [hall _] at hedit
          cases hedit
        · cases hfalse
  · intro hall i hidi
    rcases hsv : annotationSave env a with ⟨r, a2, tr⟩
    rcases r with _ | _
    · rfl
    · exfalso
      obtain ⟨d, nd, v, _, _, _, hget, _⟩ :=
        (annotationSaveSuccessSpec env a a2 tr hsv).2 i hidi
      rw [hall _] at hget
      cases hget
  · intro i hidi hdel
    unfold annotationDelete
    rw [hidi]
    dsimp only
    rw [hdel]

/-- Environments that raise from one store operation. -/
def envInsertFail : Env := { envOk with insert_node := fun _ => .error "fail" }

def envEditFail : Env := { envOk with edit_node := fun _ => .error "fail" }

def envGetFail : Env := { envOk with get_node := fun _ => .error "fail" }

def envDeleteFail : Env := { envOk with delete_node := fun _ => .error "fail" }

/-- Witness for C5 at concrete records and failing store environments. -/
theorem claim_C5_store_exceptions_contained_witness :
    (annotationSave envInsertFail privAnnotation).1 = false ∧
    (annotationSave envEditFail persistedAnnotation).1 = false ∧
    (annotationSave envGetFail persistedAnnotation).1 = false ∧
    annotationDelete envDeleteFail persistedAnnotation =
      (.ok false, [Call.deleteNode "node-id-1"]) ∧
    ((annotationSave envInsertFail privAnnotation).2.1.id =
        privAnnotation.id ∧
      (annotationSave envInsertFail privAnnotation).2.1.version =
        privAnnotation.version) := by
  refine ⟨?_, ?_, ?_, ?_, ?_⟩
  · exact (claim_C5_store_exceptions_contained envInsertFail
      privAnnotation).2.1 (fun d => rfl) rfl
  · exact (claim_C5_store_exceptions_contained envEditFail
      persistedAnnotation).2.2.1 (fun d => rfl) "node-id-1" rfl
  · exact (claim_C5_store_exceptions_contained envGetFail
      persistedAnnotation).2.2.2.1 (fun j => rfl) "node-id-1" rfl
  · exact (claim_C5_store_exceptions_contained envDeleteFail
      persistedAnnotation).2.2.2.2 "node-id-1" rfl rfl
  · exact (claim_C5_store_exceptions_contained envInsertFail
      privAnnotation).1 (annotationSave envInsertFail privAnnotation).2.1
      (annotationSave envInsertFail privAnnotation).2.2 (by rfl)

/-- The sanitisation as claim C4 words it, for comparison with the code's
`sanitizeBase`: take the base name (path separators stripped), replace spaces
with underscores, then remove the characters outside `[A-Za-z0-9_.-]`. -/
def claimSanitize (s : String) : String :=
  String.mk ((replaceSpaces (pathBasename s)).toList.filter validFileChar)

/-- Counterexample to C4 as stated: the code filters the invalid characters
(which include the space) *before* the space-to-underscore replacement, so a
space is removed, not replaced.  For the local file "my file.fa" the code
derives `.../myfile.fa` while the claim's sanitisation (spaces replaced with
underscores) demands `.../my_file.fa`. -/
theorem claim_C4_counterexample :
    sanitizeBase (pathBasename "my file.fa") = "myfile.fa" ∧
    claimSanitize "my file.fa" = "my_file.fa" ∧
    annotationRemotePath "ibd" "my file.fa" =
      "/ibd/genome/microbiome/wgs/analysis/hmgi/myfile.fa" ∧
    annotationRemotePath "ibd" "my file.fa" ≠
      "/ibd/genome/microbiome/wgs/analysis/hmgi/" ++
        claimSanitize "my file.fa" := by
  refine ⟨rfl, rfl, rfl, by decide⟩

/-- C4 (amended): for a non-private save with a mapped study (ibd ↦ ibd,
preg_preterm ↦ ptb, prediabetes ↦ t2d), the remote path handed to the
transfer collaborator is `/<study_dir>/<category path>/<sanitized filename>`,
where the sanitised filename is the base name of the local path with every
character outside `[A-Za-z0-9_.-]` removed (spaces are removed by that filter,
not replaced with underscores); on upload success the record's `urls` field
becomes the single-element list `["fasp://" ++ server ++ remote_path]`, and on
upload failure `save()` returns False, leaves the record unchanged, and makes
no store call.  Proven for Annotation and Cytokine. -/
theorem claim_C4_upload_remote_path (env : Env) (a : Annotation) (c : Cytokine)
    (s dir lf : String) (hdir : study2dir s = some dir) :
    (a.study = .str s → a.local_file = .str lf →
      (env.upload_file asperaServer env.username env.password lf
          (annotationRemotePath dir lf) = true →
        annotationUploadData env a =
          (.ok { a with urls := .list [.str ("fasp://" ++ asperaServer ++
              annotationRemotePath dir lf)] },
           [Call.uploadFile asperaServer env.username env.password lf
              (annotationRemotePath dir lf)])) ∧
      (env.upload_file asperaServer env.username env.password lf
          (annotationRemotePath dir lf) = false →
        annotationUploadData env a =
          (.error "Unable to upload annotation.",
           [Call.uploadFile asperaServer env.username env.password lf
              (annotationRemotePath dir lf)]) ∧
        (∀ r a2 tr, a.private_files.truthy = false →
          annotationSave env a = (r, a2, tr) →
          r = false ∧ a2 = a ∧ noStoreCalls tr = true))) ∧
    (c.study = .str s → c.local_file = .str lf →
      (env.upload_file asperaServer env.username env.password lf
          (cytokineRemotePath dir lf) = true →
        cytokineUploadData env c =
          (.ok { c with urls := .list [.str ("fasp://" ++ asperaServer ++
              cytokineRemotePath dir lf)] },
           [Call.uploadFile asperaServer env.username env.password lf
              (cytokineRemotePath dir lf)])) ∧
      (env.upload_file asperaServer env.username env.password lf
          (cytokineRemotePath dir lf) = false →
        cytokineUploadData env c =
          (.error "Unable to upload cytokine.",
           [Call.uploadFile asperaServer env.username env.password lf
              (cytokineRemotePath dir lf)]) ∧
        (∀ r c2 tr, c.private_files.truthy = false →
          cytokineSave env c = (r, c2, tr) →
          r = false ∧ c2 = c ∧ noStoreCalls tr = true))) := by
  constructor
  · intro hstudy hlf
    have hud : ∀ b, env.upload_file asperaServer env.username env.password lf
        (annotationRemotePath dir lf) = b →
        annotationUploadData env a =
          (if b then
            .ok { a with urls := .list [.str ("fasp://" ++ asperaServer ++
              annotationRemotePath dir lf)] }
          else .error "Unable to upload annotation.",
           [Call.uploadFile asperaServer env.username env.password lf
              (annotationRemotePath dir lf)]) := by
      intro b hb
      unfold annotationUploadData
      rw [hstudy]
      dsimp only
      rw [hdir]
      dsimp only
      rw [hlf]
      dsimp only
      rw [hb]
      cases b <;> rfl
    refine ⟨fun hb => by simpa using hud true hb, fun hb => ?_⟩
    have hfail := hud false hb
    simp only [if_neg (by simp : ¬(false = true))] at hfail
    refine ⟨hfail, ?_⟩
    intro r a2 tr hpf hs
    rcases hval : annotationValidate env a with ⟨probs, t0⟩
    have hRO : readOnlyCalls t0 = true := by
      have := annotationValidateReadOnly env a
      rw [hval] at this
      exact this
    rcases annotationSaveCases hval hs with
      ⟨_, hr, ha, htr⟩ | ⟨_, _, e, t1, hupErr, hr, ha, htr⟩ |
      ⟨a1, t1, _, hbranch, hcore⟩
    · subst htr
      exact ⟨hr, ha, readOnly_noStore hRO⟩
    · subst htr
      rw [hfail] at hupErr
      simp only [Prod.mk.injEq] at hupErr
      refine ⟨hr, ha, ?_⟩
      rw [← hupErr.2, noStoreCalls_append, readOnly_noStore hRO]
      rfl
    · rcases hbranch with ⟨hpf2, _⟩ | ⟨_, hup⟩
      · rw [hpf] at hpf2
        cases hpf2
      · rw [hfail] at hup
        simp at hup
  · intro hstudy hlf
    have hud : ∀ b, env.upload_file asperaServer env.username env.password lf
        (cytokineRemotePath dir lf) = b →
        cytokineUploadData env c =
          (if b then
            .ok { c with urls := .list [.str ("fasp://" ++ asperaServer ++
              cytokineRemotePath dir lf)] }
          else .error "Unable to upload cytokine.",
           [Call.uploadFile asperaServer env.username env.password lf
              (cytokineRemotePath dir lf)]) := by
      intro b hb
      unfold cytokineUploadData
      rw [hstudy]
      dsimp only
      rw [hdir]
      dsimp only
      rw [hlf]
      dsimp only
      rw [hb]
      cases b <;> rfl
    refine ⟨fun hb => by simpa using hud true hb, fun hb => ?_⟩
    have hfail := hud false hb
    simp only [if_neg (by simp : ¬(false = true))] at hfail
    refine ⟨hfail, ?_⟩
    intro r c2 tr hpf hs
    rcases hval : cytokineValidate env c with ⟨probs, t0⟩
    have hRO : readOnlyCalls t0 = true := by
      have := cytokineValidateReadOnly env c
      rw [hval] at this
      exact this
    rcases cytokineSaveCases hval hs with
      ⟨_, hr, ha, htr⟩ | ⟨_, _, e, t1, hupErr, hr, ha, htr⟩ |
      ⟨c1, t1, _, hbranch, hcore⟩
    · subst htr
      exact ⟨hr, ha, readOnly_noStore hRO⟩
    · subst htr
      rw [hfail] at hupErr
      simp only [Prod.mk.injEq] at hupErr
      refine ⟨hr, ha, ?_⟩
      rw [← hupErr.2, noStoreCalls_append, readOnly_noStore hRO]
      rfl
    · rcases hbranch with ⟨hpf2, _⟩ | ⟨_, hup⟩
      · rw [hpf] at hpf2
        cases hpf2
      · rw [hfail] at hup
        simp at hup

/-- An environment in which every aspera upload fails. -/
def envUploadFail : Env :=
  { envOk with upload_file := fun _ _ _ _ _ => false }

/-- A non-private Annotation pointing at the local file "my file.fa". -/
def uploadAnnotation : Annotation :=
  { links := .dict [("computed_from", .list [.str "parent-node"])],
    study := .str "ibd",
    local_file := .str "my file.fa" }

/-- A non-private Cytokine pointing at the local file "my file.fa". -/
def uploadCytokine : Cytokine :=
  { links := .dict [("derived_from", .list [.str "parent-node"])],
    study := .str "ibd",
    local_file := .str "my file.fa" }

/-- Witness for C4 (amended) at the study "ibd" and local file "my file.fa",
under an upload-succeeding and an upload-failing environment. -/
theorem claim_C4_upload_remote_path_witness :
    annotationUploadData envOk uploadAnnotation =
      (.ok { uploadAnnotation with urls := .list [.str ("fasp://" ++
          asperaServer ++ annotationRemotePath "ibd" "my file.fa")] },
       [Call.uploadFile asperaServer envOk.username envOk.password
          "my file.fa" (annotationRemotePath "ibd" "my file.fa")]) ∧
    cytokineUploadData envUploadFail uploadCytokine =
      (.error "Unable to upload cytokine.",
       [Call.uploadFile asperaServer envUploadFail.username
          envUploadFail.password "my file.fa"
          (cytokineRemotePath "ibd" "my file.fa")]) ∧
    ((cytokineSave envUploadFail uploadCytokine).1 = false ∧
      (cytokineSave envUploadFail uploadCytokine).2.1 = uploadCytokine ∧
      noStoreCalls (cytokineSave envUploadFail uploadCytokine).2.2 = true) := by
  refine ⟨?_, ?_, ?_⟩
  · exact ((claim_C4_upload_remote_path envOk uploadAnnotation {} "ibd" "ibd"
      "my file.fa" rfl).1 rfl rfl).1 rfl
  · exact (((claim_C4_upload_remote_path envUploadFail {} uploadCytokine "ibd"
      "ibd" "my file.fa" rfl).2 rfl rfl).2 rfl).1
  · exact (((claim_C4_upload_remote_path envUploadFail {} uploadCytokine "ibd"
      "ibd" "my file.fa" rfl).2 rfl rfl).2 rfl).2
      (cytokineSave envUploadFail uploadCytokine).1
      (cytokineSave envUploadFail uploadCytokine).2.1
      (cytokineSave envUploadFail uploadCytokine).2.2 rfl rfl

/-- Three matching documents for the pagination scenario (N = 3). -/
def c6docs : List Val :=
  [.dict [("k", .num 1)], .dict [("k", .num 2)], .dict [("k", .num 3)]]

/-- The paged-store environment for the pagination scenario: page size P = 2,
every page reporting the total matching count 3. -/
def envPaged : Env :=
  { envOk with oql_query := fun _ _ page => pagedStore c6docs 2 page }

theorem linkTraversalNeverBreaks {q : Nat → Int × List Val}
    (hq : ∀ page, ¬((q page).1 - ((q page).2).length < 1)) :
    ∀ (fuel page : Nat), (linkTraversalRun q fuel page).2 = false := by
  intro fuel
  induction fuel with
  | zero => intro page; rfl
  | succ n ih =>
    intro page
    unfold linkTraversalRun
    rcases hpg : q page with ⟨cnt, results⟩
    dsimp only
    split
    · rename_i hlt
      have := hq page
      rw [hpg] at this
      exact absurd hlt (by simpa using this)
    · rcases hrec : linkTraversalRun q n (page + 1) with ⟨rest, fin⟩
      dsimp only
      have := ih (page + 1)
      rw [hrec] at this
      simpa using this

theorem pagedStoreNoBreak (page : Nat) :
    ¬((pagedStore c6docs 2 page).1 -
        ((pagedStore c6docs 2 page).2).length < 1) := by
  intro hlt
  dsimp only [pagedStore] at hlt
  have hlen : ((c6docs.drop ((page - 1) * 2)).take 2).length ≤ 2 :=
    List.length_take_le _ _
  have h3 : c6docs.length = 3 := rfl
  rw [h3] at hlt
  omega

/-- C6 (refuting the termination part): with N = 3 matching records and page
size P = 2, where every page query reports the matching count and returns
that page of hits, the accessors yield exactly the N records in document
order across ceil(N/P) = 2 pages — but the generator never terminates: the
loop recomputes its remaining count from each freshly fetched page instead of
keeping a running decrement, so after the documents are exhausted every
further (empty) page leaves the count at 3 and the loop continues forever.
Stated for `HostAssayPrep.cytokines` and `Annotation.clustered_seq_sets`:
for every fuel bound the traversal fails to reach its `break`. -/
theorem claim_C6_pagination_diverges :
    (∀ (p0 : HostAssayPrep) (fuel : Nat),
      (hostAssayPrepCytokines envPaged p0 fuel).2 = false) ∧
    (∀ (p0 : HostAssayPrep),
      (hostAssayPrepCytokines envPaged p0 2).1 = c6docs.map cytokineLoad) ∧
    (∀ (a0 : Annotation) (fuel : Nat),
      (annotationClusteredSeqSets envPaged a0 fuel).2 = false) ∧
    (∀ (a0 : Annotation),
      (annotationClusteredSeqSets envPaged a0 2).1 = c6docs) := by
  refine ⟨?_, ?_, ?_, ?_⟩
  · intro p0 fuel
    exact linkTraversalNeverBreaks (fun page => pagedStoreNoBreak page) fuel 1
  · intro p0
    rfl
  · intro a0 fuel
    exact linkTraversalNeverBreaks (fun page => pagedStoreNoBreak page) fuel 1
  · intro a0
    rfl

theorem exceptBindOk {α β : Type} {x : Except String α} {f : α → Except String β}
    {r : β} (h : (x >>= f) = .ok r) : ∃ v, x = .ok v ∧ f v = .ok r := by
  cases x with
  | error e =>
    rw [show ((Except.error e : Except String α) >>= f) =
      Except.error e from rfl] at h
    cases h
  | ok v => exact ⟨v, rfl, h⟩

theorem reqMetaSome {d : Val} {k : String} {v : Val}
    (h : reqMeta d k = .ok v) : optMeta d k = some v := by
  unfold reqMeta at h
  unfold optMeta
  split at h
  · rename_i v2 hm
    cases h
    exact hm
  · cases h

theorem sixteenSLoadPresence {d : Val} {q : SixteenSTrimmedSeqSet}
    (h : sixteenSLoad d = .ok q) :
    (optMeta d "checksums").isSome = true ∧
    (optMeta d "comment").isSome = true ∧
    (optMeta d "format").isSome = true ∧
    (optMeta d "format_doc").isSome = true ∧
    (optMeta d "size").isSome = true ∧
    (optMeta d "tags").isSome = true ∧
    (optMeta d "urls").isSome = true := by
  unfold sixteenSLoad at h
  obtain ⟨hdr, _, h⟩ := exceptBindOk h
  obtain ⟨i, lk, ver⟩ := hdr
  obtain ⟨cks, hcks, h⟩ := exceptBindOk h
  obtain ⟨q2, _, h⟩ := exceptBindOk h
  obtain ⟨cm, hcm, h⟩ := exceptBindOk h
  obtain ⟨q3, _, h⟩ := exceptBindOk h
  obtain ⟨fm, hfm, h⟩ := exceptBindOk h
  obtain ⟨q4, _, h⟩ := exceptBindOk h
  obtain ⟨fd, hfd, h⟩ := exceptBindOk h
  obtain ⟨q5, _, h⟩ := exceptBindOk h
  obtain ⟨sz, hsz, h⟩ := exceptBindOk h
  obtain ⟨q6, _, h⟩ := exceptBindOk h
  obtain ⟨tg, htg, h⟩ := exceptBindOk h
  obtain ⟨u1, _, h⟩ := exceptBindOk h
  obtain ⟨ur, hur, h⟩ := exceptBindOk h
  refine ⟨?_, ?_, ?_, ?_, ?_, ?_, ?_⟩ <;>
    simp [reqMetaSome hcks, reqMetaSome hcm, reqMetaSome hfm, reqMetaSome hfd,
      reqMetaSome hsz, reqMetaSome htg, reqMetaSome hur]

theorem annotationLoadPresence {d : Val} {a : Annotation}
    (h : annotationLoad d = .ok a) :
    (optMeta d "annotation_pipeline").isSome = true ∧
    (optMeta d "checksums").isSome = true ∧
    (optMeta d "format").isSome = true ∧
    (optMeta d "format_doc").isSome = true ∧
    (optMeta d "study").isSome = true ∧
    (optMeta d "tags").isSome = true ∧
    (optMeta d "urls").isSome = true := by
  unfold annotationLoad at h
  obtain ⟨hdr, _, h⟩ := exceptBindOk h
  obtain ⟨i, lk, ver⟩ := hdr
  obtain ⟨ap, hap, h⟩ := exceptBindOk h
  obtain ⟨a2, _, h⟩ := exceptBindOk h
  obtain ⟨cks, hcks, h⟩ := exceptBindOk h
  obtain ⟨a3, _, h⟩ := exceptBindOk h
  obtain ⟨fm, hfm, h⟩ := exceptBindOk h
  obtain ⟨a4, _, h⟩ := exceptBindOk h
  obtain ⟨fd, hfd, h⟩ := exceptBindOk h
  obtain ⟨a5, _, h⟩ := exceptBindOk h
  obtain ⟨st, hst, h⟩ := exceptBindOk h
  obtain ⟨a6, _, h⟩ := exceptBindOk h
  obtain ⟨tg, htg, h⟩ := exceptBindOk h
  obtain ⟨u1, _, h⟩ := exceptBindOk h
  obtain ⟨ur, hur, h⟩ := exceptBindOk h
  refine ⟨?_, ?_, ?_, ?_, ?_, ?_, ?_⟩ <;>
    simp [reqMetaSome hap, reqMetaSome hcks, reqMetaSome hfm, reqMetaSome hfd,
      reqMetaSome hst, reqMetaSome htg, reqMetaSome hur]

/-- C8 (amended): each load routine reads a fixed per-type set of document
fields unconditionally, so the mapping can succeed only when each of those
keys is present in the document's meta section (a document missing one makes
the mapping fail), and reads optional fields only when present.  That
unconditional set does not coincide with `required_fields()`:
`load_sixteenSTrimmedSeqSet` reads checksums, comment, format, format_doc,
size, tags and urls — not `study` or `local_file`, both listed by
`required_fields()` — and `load_annotation` reads annotation_pipeline,
checksums, format, format_doc, study, tags and urls — not `orf_process` or
`size`. -/
theorem claim_C8_load_required_fields :
    (∀ (d : Val) (q : SixteenSTrimmedSeqSet), sixteenSLoad d = .ok q →
      (optMeta d "checksums").isSome = true ∧
      (optMeta d "comment").isSome = true ∧
      (optMeta d "format").isSome = true ∧
      (optMeta d "format_doc").isSome = true ∧
      (optMeta d "size").isSome = true ∧
      (optMeta d "tags").isSome = true ∧
      (optMeta d "urls").isSome = true) ∧
    (∀ (d : Val) (a : Annotation), annotationLoad d = .ok a →
      (optMeta d "annotation_pipeline").isSome = true ∧
      (optMeta d "checksums").isSome = true ∧
      (optMeta d "format").isSome = true ∧
      (optMeta d "format_doc").isSome = true ∧
      (optMeta d "study").isSome = true ∧
      (optMeta d "tags").isSome = true ∧
      (optMeta d "urls").isSome = true) :=
  ⟨fun _ _ h => sixteenSLoadPresence h, fun _ _ h => annotationLoadPresence h⟩

/-- A raw 16S-trimmed document carrying exactly the meta keys the load
routine reads unconditionally — in particular no `study`. -/
def c8doc : Val :=
  .dict [("id", .str "n1"),
         ("linkage", .dict [("computed_from", .list [.str "p"])]),
         ("ver", .num 4),
         ("meta", .dict [
            ("checksums", .dict [("md5", .str "aa")]),
            ("comment", .str "c"),
            ("format", .str "fasta"),
            ("format_doc", .str "fd"),
            ("size", .num 10),
            ("tags", .list []),
            ("urls", .list [.str "u"])])]

/-- The record `load_sixteenSTrimmedSeqSet` builds from `c8doc`. -/
def c8loaded : SixteenSTrimmedSeqSet :=
  { id := some "n1",
    version := .num 4,
    links := .dict [("computed_from", .list [.str "p"])],
    tags := .list [],
    checksums := .dict [("md5", .str "aa")],
    comment := .str "c",
    format := .str "fasta",
    format_doc := .str "fd",
    size := .num 10,
    urls := .list [.str "u"] }

/-- A raw annotation document with the meta keys `load_annotation` reads
unconditionally — in particular no `orf_process` and no `size`. -/
def c8adoc : Val :=
  .dict [("id", .str "n2"),
         ("linkage", .dict [("computed_from", .list [.str "p"])]),
         ("ver", .num 5),
         ("meta", .dict [
            ("annotation_pipeline", .str "pipe"),
            ("checksums", .dict [("md5", .str "bb")]),
            ("format", .str "gff3"),
            ("format_doc", .str "fd"),
            ("study", .str "ibd"),
            ("tags", .list []),
            ("urls", .list [.str "u"])])]

/-- The record `load_annotation` builds from `c8adoc`. -/
def c8aloaded : Annotation :=
  { id := some "n2",
    version := .num 5,
    links := .dict [("computed_from", .list [.str "p"])],
    tags := .list [],
    annotation_pipeline := .str "pipe",
    checksums := .dict [("md5", .str "bb")],
    format := .str "gff3",
    format_doc := .str "fd",
    study := .str "ibd",
    urls := .list [.str "u"] }

/-- Counterexample to C8 as stated: `study` is listed by
`SixteenSTrimmedSeqSet.required_fields()`, yet a document without it maps
successfully and the resulting record's `study` (and `local_file`) stay None;
likewise `orf_process` and `size` are listed by `Annotation.required_fields()`
but never populated by `load_annotation`. -/
theorem claim_C8_counterexample :
    "study" ∈ sixteenSRequiredFields ∧
    optMeta c8doc "study" = none ∧
    sixteenSLoad c8doc = .ok c8loaded ∧
    c8loaded.study = .null ∧
    c8loaded.local_file = .null ∧
    "orf_process" ∈ annotationRequiredFields ∧
    "size" ∈ annotationRequiredFields ∧
    optMeta c8adoc "orf_process" = none ∧
    optMeta c8adoc "size" = none ∧
    annotationLoad c8adoc = .ok c8aloaded ∧
    c8aloaded.orf_process = .null ∧
    c8aloaded.size = .null :=
  ⟨by decide, rfl, rfl, rfl, rfl, by decide, by decide, rfl, rfl, rfl,
   rfl, rfl⟩

/-- Witness for C8 (amended) at the concrete document `c8doc`. -/
theorem claim_C8_load_required_fields_witness :
    (optMeta c8doc "checksums").isSome = true ∧
    (optMeta c8doc "urls").isSome = true ∧
    (optMeta c8adoc "annotation_pipeline").isSome = true := by
  obtain ⟨h1, _, _, _, _, _, h7⟩ :=
    claim_C8_load_required_fields.1 c8doc c8loaded (by rfl)
  obtain ⟨g1, _⟩ :=
    claim_C8_load_required_fields.2 c8adoc c8aloaded (by rfl)
  exact ⟨h1, h7, g1⟩

end Cutlass
